import Mathlib

/-!
The osv-reporter command: differential vulnerability gate, report fan-out and exit codes

A shallow embedding of `cmd/osv-reporter/main.go` (the `run` function and the
`Action` closure it installs) and of
`internal/scalibrextract/vcs/gitrepo/extractor.go` (`Extract`).

External collaborators (`ci.LoadVulnResults`, the two `ci.Diff...` functions,
`os.Create`, `reporter.PrintResult`, `term.GetSize`, the `cmdlogger` state and
the go-git repository handle) are not part of the embedded sources; they are
taken as fields of an environment record and threaded through an explicit
world state.
-/

namespace OsvReporter

/-! ## Error values -/

/-- Go `error` values as far as `run` distinguishes them: the two sentinels of
package `osvscanner`, any other error, and `fmt.Errorf("...: %w", cause)`. -/
inductive GoError where
  | ErrVulnerabilitiesFound : GoError
  | ErrNoPackagesFound : GoError
  | other (msg : String) : GoError
  | wrap (msg : String) (cause : GoError) : GoError
  deriving DecidableEq

/-- The function `errors.Is(err, target)`: walk the `%w` chain of `err` and
compare each link with `target`. -/
def GoError.Is : GoError → GoError → Bool
  | .wrap msg cause, target =>
      if GoError.wrap msg cause = target then true else GoError.Is cause target
  | e, target => decide (e = target)

/-- `errors.Is` on a possibly nil error: nil matches no sentinel. -/
def errorsIs (err : Option GoError) (target : GoError) : Bool :=
  match err with
  | none => false
  | some e => e.Is target

/-! ## Result model -/

/-- Identity tuple of a package: name, ecosystem and resolved version. -/
structure PackageInfo where
  name : String
  ecosystem : String
  version : String
  deriving DecidableEq

/-- Modelled from the spec: `models.GroupInfo` is not among the embedded
sources. A group of aliased vulnerability identifiers carrying the derived
`isCalled` boolean, which is opaque input to the engine. -/
structure GroupInfo where
  ids : List String
  isCalled : Bool
  deriving DecidableEq

/-- Modelled from the spec: the method `GroupInfo.IsCalled()` is not among the
embedded sources; it reads the reachability flag of the group. -/
def GroupInfo.IsCalled (g : GroupInfo) : Bool := g.isCalled

/-- One affected package within a source (`PackageFinding` of the spec). -/
structure PackageVulns where
  package : PackageInfo
  vulnerabilities : List String
  groupInfo : List GroupInfo
  deriving DecidableEq

/-- Findings scoped to one manifest (`SourceResult` of the spec). -/
structure PackageSource where
  source : String
  packageVulns : List PackageVulns
  deriving DecidableEq

/-- The type `models.VulnerabilityResults`: a snapshot, and also a diff result. -/
structure VulnerabilityResults where
  Results : List PackageSource
  deriving DecidableEq

/-- One `(source, package, vulnerabilityGroup)` tuple of a flattened result. -/
structure VulnerabilityFlattened where
  Source : String
  Package : PackageInfo
  GroupInfo : GroupInfo
  deriving DecidableEq

/-- Modelled from the spec: `VulnerabilityResults.Flatten` is not among the
embedded sources. The flat sequence of `(source, package, vulnerabilityGroup)`
tuples, in snapshot order. -/
def VulnerabilityResults.Flatten (v : VulnerabilityResults) : List VulnerabilityFlattened :=
  v.Results.flatMap fun res =>
    res.packageVulns.flatMap fun pkg =>
      pkg.groupInfo.map fun g => ⟨res.source, pkg.package, g⟩

/-! ## Directive parsing -/

/-- The function `strings.Cut(s, sep)` for a one-character separator: the text
before the first `sep`, the text after it, and whether `sep` occurs. -/
def stringsCut (s : String) (sep : Char) : String × String × Bool :=
  match s.toList.span (fun c => c != sep) with
  | (pre, _ :: post) => (String.mk pre, String.mk post, true)
  | (_, []) => (s, "", false)

/-- Lines 154 to 160 of `main.go`: the `(format, outputPath)` pair of one
`--output` directive. -/
def parseDirective (outputPath : String) : String × String :=
  match stringsCut outputPath ':' with
  | (preColon, postColon, true) => (preColon, postColon)
  | (_, _, false) => ("sarif", outputPath)

/-- The destination a render writes to. -/
inductive Writer where
  | stdout : Writer
  | stderr : Writer
  | file (path : String) : Writer
  deriving DecidableEq

/-- The `switch outputPath` of lines 165 to 174, without the effect of
`os.Create`: which writer a path stands for. -/
def resolveWriter (outputPath : String) : Writer :=
  if outputPath = "#stdout" then Writer.stdout
  else if outputPath = "#stderr" then Writer.stderr
  else Writer.file outputPath

/-! ## Environment, events and the report fan-out -/

/-- The arguments of one call of `reporter.PrintResult`. -/
structure RenderCall where
  diff : VulnerabilityResults
  format : String
  writer : Writer
  termWidth : Int
  showAll : Bool
  deriving DecidableEq

/-- What the `Action` does to the outside world, in order. -/
inductive Event where
  | load (path : String) (err : Option GoError) : Event
  | warnf (path : String) : Event
  | create (path : String) (err : Option GoError) : Event
  | printResult (call : RenderCall) (err : Option GoError) : Event
  deriving DecidableEq

/-- The state of the `cmdlogger` handler that `run` queries. -/
structure Logger where
  hasErrored : Bool
  hasErroredBecauseInvalidConfig : Bool
  deriving DecidableEq

/-- Modelled from the spec: `cmdlogger.Errorf` is not among the embedded
sources. Logging at error level records that an error was logged. -/
def Logger.Errorf (l : Logger) : Logger :=
  { l with hasErrored := true }

/-- The collaborators of `run`, over a world state `σ` (file system, streams,
logger): each effectful one maps a world to the next world and its result. -/
structure Env (σ : Type) where
  /-- Result of `term.GetSize` on stdout, `none` when stdout is not an `*os.File`. -/
  termGetSize : Option (Except GoError Int)
  /-- The loader `ci.LoadVulnResults`. -/
  LoadVulnResults : σ → String → σ × Except GoError VulnerabilityResults
  /-- The probe `ci.DiffVulnerabilityResultsByOccurrences`. -/
  DiffVulnerabilityResultsByOccurrences :
    VulnerabilityResults → VulnerabilityResults → List String
  /-- The full diff `ci.DiffVulnerabilityResults`. -/
  DiffVulnerabilityResults :
    VulnerabilityResults → VulnerabilityResults → VulnerabilityResults
  /-- The call `os.Create(path)`: `none` when the file was created. -/
  Create : σ → String → σ × Option GoError
  /-- The call `reporter.PrintResult`: `none` when the render succeeded. -/
  PrintResult : σ → RenderCall → σ × Option GoError
  /-- The logger state read by `run` after the command returned. -/
  logger : σ → Logger

/-- The parsed command line (`cmd.String`, `cmd.StringSlice`, `cmd.Bool`,
`cmd.IsSet`). -/
structure Flags where
  old : String
  new : String
  output : List String
  ghAnnotations : Bool
  failOnVulnIsSet : Bool
  failOnVuln : Bool
  allVulns : Bool
  deriving DecidableEq

/-- Lines 99 to 106: the terminal width, zero when stdout is no file or no
terminal. -/
def detectTermWidth (size : Option (Except GoError Int)) : Int :=
  match size with
  | none => 0
  | some (Except.ok width) => width
  | some (Except.error _) => 0

/-- The mutable locals of the `Action` during the fan-out. -/
structure FanState (σ : Type) where
  world : σ
  trace : List Event
  stdoutTaken : Bool
  termWidth : Int

/-- One iteration of the directive loop, lines 153 to 184. -/
def directiveStep {σ : Type} (env : Env σ) (diffVulns : VulnerabilityResults)
    (showAllVulns : Bool) (directive : String) (st : FanState σ) :
    FanState σ × Option GoError :=
  let format := (parseDirective directive).1
  let outputPath := (parseDirective directive).2
  if outputPath = "#stdout" then
    let call : RenderCall := ⟨diffVulns, format, Writer.stdout, 0, showAllVulns⟩
    let r := env.PrintResult st.world call
    (⟨r.1, st.trace ++ [Event.printResult call r.2], true, 0⟩,
      r.2.map (GoError.wrap "failed to write output"))
  else if outputPath = "#stderr" then
    let call : RenderCall := ⟨diffVulns, format, Writer.stderr, 0, showAllVulns⟩
    let r := env.PrintResult st.world call
    (⟨r.1, st.trace ++ [Event.printResult call r.2], true, 0⟩,
      r.2.map (GoError.wrap "failed to write output"))
  else
    let c := env.Create st.world outputPath
    match c.2 with
    | some err =>
        (⟨c.1, st.trace ++ [Event.create outputPath (some err)], st.stdoutTaken, st.termWidth⟩,
          some (GoError.wrap "failed to create output file" err))
    | none =>
        let call : RenderCall := ⟨diffVulns, format, Writer.file outputPath, 0, showAllVulns⟩
        let r := env.PrintResult c.1 call
        (⟨r.1, st.trace ++ [Event.create outputPath none, Event.printResult call r.2],
            st.stdoutTaken, 0⟩,
          r.2.map (GoError.wrap "failed to write output"))

/-- The directive loop: stop at the first directive that returns an error. -/
def directiveLoop {σ : Type} (env : Env σ) (diffVulns : VulnerabilityResults)
    (showAllVulns : Bool) : List String → FanState σ → FanState σ × Option GoError
  | [], st => (st, none)
  | directive :: rest, st =>
      match directiveStep env diffVulns showAllVulns directive st with
      | (st1, some err) => (st1, some err)
      | (st1, none) => directiveLoop env diffVulns showAllVulns rest st1

/-- Lines 187 to 191: the table render to stdout when no directive took a
standard stream. -/
def tableStep {σ : Type} (env : Env σ) (diffVulns : VulnerabilityResults)
    (showAllVulns : Bool) (st : FanState σ) : FanState σ × Option GoError :=
  if st.stdoutTaken then (st, none)
  else
    let call : RenderCall := ⟨diffVulns, "table", Writer.stdout, st.termWidth, showAllVulns⟩
    let r := env.PrintResult st.world call
    ({ st with world := r.1, trace := st.trace ++ [Event.printResult call r.2] },
      r.2.map (GoError.wrap "failed to write output"))

/-- Lines 193 to 197: the legacy annotation render to stderr. -/
def annotationStep {σ : Type} (env : Env σ) (diffVulns : VulnerabilityResults)
    (showAllVulns : Bool) (ghAnnotations : Bool) (st : FanState σ) :
    FanState σ × Option GoError :=
  if ghAnnotations then
    let call : RenderCall :=
      ⟨diffVulns, "gh-annotations", Writer.stderr, st.termWidth, showAllVulns⟩
    let r := env.PrintResult st.world call
    ({ st with world := r.1, trace := st.trace ++ [Event.printResult call r.2] },
      r.2.map (GoError.wrap "failed to write output"))
  else (st, none)

/-- Lines 148 to 197: the whole report fan-out, from the world `w` with the
detected terminal width. -/
def fanOut {σ : Type} (env : Env σ) (flags : Flags) (termWidth : Int) (w : σ)
    (diffVulns : VulnerabilityResults) : FanState σ × Option GoError :=
  match directiveLoop env diffVulns flags.allVulns flags.output ⟨w, [], false, termWidth⟩ with
  | (st1, some err) => (st1, some err)
  | (st1, none) =>
      match tableStep env diffVulns flags.allVulns st1 with
      | (st2, some err) => (st2, some err)
      | (st2, none) => annotationStep env diffVulns flags.allVulns flags.ghAnnotations st2

/-! ## Gate decision -/

/-- Lines 203 to 209: the loop with `break` over the flattened tuples. -/
def anyIsCalled : List VulnerabilityFlattened → Bool
  | [] => false
  | vuln :: rest => if vuln.GroupInfo.IsCalled then true else anyIsCalled rest

/-- Line 200: the flag defaults to true, false only when set to false. -/
def failOnVulnOf (flags : Flags) : Bool :=
  !flags.failOnVulnIsSet || flags.failOnVuln

/-- Lines 199 to 216: the error the `Action` returns after a successful
fan-out. -/
def gate (flags : Flags) (diffVulns : VulnerabilityResults) : Option GoError :=
  if decide (diffVulns.Results.length > 0) && failOnVulnOf flags
      && anyIsCalled diffVulns.Flatten then
    some GoError.ErrVulnerabilitiesFound
  else none

/-! ## Snapshot loading and diff selection -/

/-- The empty value `models.VulnerabilityResults{}`. -/
def emptyResults : VulnerabilityResults := ⟨[]⟩

/-- The two snapshots after loading, the world and the events of loading. -/
structure Loaded (σ : Type) where
  world : σ
  trace : List Event
  oldVulns : VulnerabilityResults
  newVulns : VulnerabilityResults

/-- Lines 111 to 119: load the baseline unless its path is empty; a failure
is logged as a warning and replaced by the empty snapshot. -/
def loadOld {σ : Type} (env : Env σ) (oldPath : String) (w : σ) :
    σ × List Event × VulnerabilityResults :=
  if oldPath ≠ "" then
    match env.LoadVulnResults w oldPath with
    | (w1, Except.ok v) => (w1, [Event.load oldPath none], v)
    | (w1, Except.error err) =>
        (w1, [Event.load oldPath (some err), Event.warnf oldPath], emptyResults)
  else (w, [], emptyResults)

/-- Lines 121 to 126: load the current snapshot; a failure is logged as a
warning and replaced by the empty snapshot. -/
def loadNew {σ : Type} (env : Env σ) (newPath : String) (w : σ) :
    σ × List Event × VulnerabilityResults :=
  match env.LoadVulnResults w newPath with
  | (w1, Except.ok v) => (w1, [Event.load newPath none], v)
  | (w1, Except.error err) =>
      (w1, [Event.load newPath (some err), Event.warnf newPath], emptyResults)

/-- Lines 108 to 126: both loads in order. -/
def loadSnapshots {σ : Type} (env : Env σ) (flags : Flags) (w : σ) : Loaded σ :=
  let o := loadOld env flags.old w
  let n := loadNew env flags.new o.1
  ⟨n.1, o.2.1 ++ n.2.1, o.2.2, n.2.2⟩

/-- Lines 128 to 146: the diff handed to the fan-out and the gate. -/
def selectDiff {σ : Type} (env : Env σ) (oldVulns newVulns : VulnerabilityResults) :
    VulnerabilityResults :=
  if (env.DiffVulnerabilityResultsByOccurrences oldVulns newVulns).length = 0 then
    emptyResults
  else env.DiffVulnerabilityResults oldVulns newVulns

/-! ## The Action and the exit code -/

/-- What one run of the `Action` leaves behind. -/
structure Outcome (σ : Type) where
  world : σ
  trace : List Event
  err : Option GoError

/-- Lines 148 to 216: fan-out on `diffVulns`, then the gate unless the fan-out
returned an error. -/
def reportAndGate {σ : Type} (env : Env σ) (flags : Flags) (termWidth : Int) (w : σ)
    (diffVulns : VulnerabilityResults) : Outcome σ :=
  match fanOut env flags termWidth w diffVulns with
  | (st, some err) => ⟨st.world, st.trace, some err⟩
  | (st, none) => ⟨st.world, st.trace, gate flags diffVulns⟩

/-- The diff the `Action` computes from the world `w`. -/
def actionDiff {σ : Type} (env : Env σ) (flags : Flags) (w : σ) : VulnerabilityResults :=
  selectDiff env (loadSnapshots env flags w).oldVulns (loadSnapshots env flags w).newVulns

/-- The fan-out stage of the `Action` run from the world `w`. -/
def actionFanOut {σ : Type} (env : Env σ) (flags : Flags) (w : σ) :
    FanState σ × Option GoError :=
  fanOut env flags (detectTermWidth env.termGetSize) (loadSnapshots env flags w).world
    (actionDiff env flags w)

/-- Lines 98 to 217: the `Action` closure. -/
def Action {σ : Type} (env : Env σ) (flags : Flags) (w : σ) : Outcome σ :=
  let l := loadSnapshots env flags w
  let out := reportAndGate env flags (detectTermWidth env.termGetSize) l.world
    (selectDiff env l.oldVulns l.newVulns)
  ⟨out.world, l.trace ++ out.trace, out.err⟩

/-- Lines 220 to 247: the exit code from the logger state after `app.Run` and
the error it returned. -/
def exitCode (logger : Logger) (err : Option GoError) : Int :=
  if logger.hasErroredBecauseInvalidConfig then 130
  else
    match err with
    | some e =>
        if e.Is GoError.ErrVulnerabilitiesFound then 1
        else if e.Is GoError.ErrNoPackagesFound then 128
        else if (logger.Errorf).hasErrored then 127 else 0
    | none => if logger.hasErrored then 127 else 0

/-- The function `run` once the command line is parsed into `flags`. -/
def run {σ : Type} (env : Env σ) (flags : Flags) (w : σ) : Int :=
  exitCode (env.logger (Action env flags w).world) (Action env flags w).err

end OsvReporter

namespace OsvReporter

/-! ## Diff strategies and a concrete environment -/

/-- Every vulnerability identifier occurring anywhere in a snapshot. -/
def vulnIds (v : VulnerabilityResults) : List String :=
  v.Results.flatMap fun res => res.packageVulns.flatMap fun pkg => pkg.vulnerabilities

/-- Modelled from the spec: `ci.DiffVulnerabilityResultsByOccurrences` is not
among the embedded sources. The distinct identifiers present anywhere in `new`
and nowhere in `old`, whatever source or package they occur under. -/
def occurrenceDiff (oldVulns newVulns : VulnerabilityResults) : List String :=
  ((vulnIds newVulns).filter fun id => !(vulnIds oldVulns).contains id).eraseDups

/-- A tuple of `new` is new when `old` has no tuple with the same source, the
same package and an overlapping alias set. -/
def tupleIsNew (oldVulns : VulnerabilityResults) (t : VulnerabilityFlattened) : Bool :=
  !oldVulns.Flatten.any fun o =>
    decide (o.Source = t.Source) && decide (o.Package = t.Package)
      && o.GroupInfo.ids.any fun id => t.GroupInfo.ids.contains id

/-- Modelled from the spec: `ci.DiffVulnerabilityResults` is not among the
embedded sources. The new tuples of `new`, with their source and package
attribution; packages and sources left without a group are dropped. -/
def fullDiff (oldVulns newVulns : VulnerabilityResults) : VulnerabilityResults :=
  ⟨(newVulns.Results.map fun res =>
      { res with
        packageVulns :=
          (res.packageVulns.map fun pkg =>
            let groups := pkg.groupInfo.filter fun g =>
              tupleIsNew oldVulns ⟨res.source, pkg.package, g⟩
            { pkg with
              groupInfo := groups
              vulnerabilities := pkg.vulnerabilities.filter fun id =>
                groups.any fun g => g.ids.contains id }).filter
            fun pkg => !pkg.groupInfo.isEmpty }).filter
    fun res => !res.packageVulns.isEmpty⟩

/-- A small deterministic environment: snapshots come from `files`, the file
`/ro/out.sarif` cannot be created, the format `bogus` cannot be rendered, and
the world is the list of files created so far. -/
def sampleEnv (files : String → Option VulnerabilityResults) : Env (List String) where
  termGetSize := some (Except.ok 120)
  LoadVulnResults := fun w path =>
    match files path with
    | some v => (w, Except.ok v)
    | none => (w, Except.error (GoError.other "open: no such file or directory"))
  DiffVulnerabilityResultsByOccurrences := occurrenceDiff
  DiffVulnerabilityResults := fullDiff
  Create := fun w path =>
    if path = "/ro/out.sarif" then (w, some (GoError.other "open: permission denied"))
    else (path :: w, none)
  PrintResult := fun w call =>
    if call.format = "bogus" then (w, some (GoError.other "unsupported output format"))
    else (w, none)
  logger := fun _ => ⟨false, false⟩

/-- The finding `foo@1.0` with one group `id`, reachability `called`. -/
def fooFinding (id : String) (called : Bool) : PackageVulns :=
  ⟨⟨"foo", "npm", "1.0"⟩, [id], [⟨[id], called⟩]⟩

/-- A snapshot with the single finding `fooFinding id called` under `source`. -/
def oneFinding (source id : String) (called : Bool) : VulnerabilityResults :=
  ⟨[⟨source, [fooFinding id called]⟩]⟩

/-- Files of scenario 2: no baseline, `VULN-2` reachable in the current scan. -/
def filesNewCalled : String → Option VulnerabilityResults := fun path =>
  if path = "new.json" then some (oneFinding "pkg/lock.json" "VULN-2" true) else none

/-- Files of scenario 3: `VULN-3` moved from `a/lock.json` to `b/lock.json`. -/
def filesMoved : String → Option VulnerabilityResults := fun path =>
  if path = "old.json" then some (oneFinding "a/lock.json" "VULN-3" true)
  else if path = "new.json" then some (oneFinding "b/lock.json" "VULN-3" true)
  else none

/-- Files where the baseline exists and is the empty snapshot. -/
def filesEmptyOld : String → Option VulnerabilityResults := fun path =>
  if path = "old.json" then some emptyResults
  else if path = "new.json" then some (oneFinding "pkg/lock.json" "VULN-2" true)
  else none

/-- Files where the current snapshot exists and is the empty snapshot. -/
def filesEmptyNew : String → Option VulnerabilityResults := fun path =>
  if path = "new.json" then some emptyResults else none

/-- Default flags: baseline `old.json`, current `new.json`, nothing else set. -/
def baseFlags : Flags :=
  ⟨"old.json", "new.json", [], false, false, false, false⟩

end OsvReporter

namespace Gitrepo

open OsvReporter (GoError)

/-! ## The git provenance extractor -/

/-- The fields of `git.SubmoduleStatus` that `Extract` reads. -/
structure SubmoduleStatus where
  Path : String
  Expected : String
  deriving DecidableEq

/-- A `git.Submodule`: the result of its `Status()` call. -/
structure Submodule where
  Status : Except GoError SubmoduleStatus

/-- A `git.Worktree`: the result of its `Submodules()` call. -/
structure Worktree where
  Submodules : Except GoError (List Submodule)

/-- A `git.Repository`: the results of `Head()` (the hash as a string) and of
`Worktree()`. -/
structure Repository where
  Head : Except GoError String
  Worktree : Except GoError Worktree

/-- The extractor configuration. -/
structure Extractor where
  IncludeRootGit : Bool
  Disabled : Bool
  deriving DecidableEq

/-- The fields of `filesystem.ScanInput` that `Extract` reads. -/
structure ScanInput where
  Root : String
  Path : String
  deriving DecidableEq

/-- An `extractor.Package` as built by `createCommitQueryInventory`. -/
structure Package where
  Commit : String
  Locations : List String
  deriving DecidableEq

/-- The type `inventory.Inventory`, restricted to its packages. -/
structure Inventory where
  Packages : List Package
  deriving DecidableEq

/-- The library calls of `Extract`: `git.PlainOpen`, `path.Join` and
`filepath.Dir`. -/
structure GitEnv where
  PlainOpen : String → Except GoError Repository
  pathJoin : String → String → String
  filepathDir : String → String

/-- Lines 34 to 41. -/
def getCommitSHA (repo : Repository) : Except GoError String :=
  match repo.Head with
  | Except.error err => Except.error err
  | Except.ok hash => Except.ok hash

/-- The loop of lines 52 to 58: statuses of the submodules whose `Status()`
succeeds, in order. -/
def collectStatuses : List Submodule → List SubmoduleStatus
  | [] => []
  | s :: rest =>
      match s.Status with
      | Except.error _ => collectStatuses rest
      | Except.ok status => status :: collectStatuses rest

/-- Lines 43 to 61. -/
def getSubmodules (repo : Repository) : Except GoError (List SubmoduleStatus) :=
  match repo.Worktree with
  | Except.error err => Except.error err
  | Except.ok worktree =>
      match worktree.Submodules with
      | Except.error err => Except.error err
      | Except.ok ss => Except.ok (collectStatuses ss)

/-- Lines 63 to 70. -/
def createCommitQueryInventory (commit : String) (location : String) : Package :=
  ⟨commit, [location]⟩

/-- Lines 105 to 144: the inventory and the error `Extract` returns. -/
def Extract (git : GitEnv) (e : Extractor) (input : ScanInput) : Inventory × Option GoError :=
  if e.Disabled then (⟨[]⟩, none)
  else
    match git.PlainOpen (git.pathJoin input.Root (git.filepathDir input.Path)) with
    | Except.error err => (⟨[]⟩, some err)
    | Except.ok repo =>
        let inv : Inventory :=
          if e.IncludeRootGit then
            match getCommitSHA repo with
            | Except.ok commitSHA => ⟨[createCommitQueryInventory commitSHA input.Path]⟩
            | Except.error _ => ⟨[]⟩
          else ⟨[]⟩
        match getSubmodules repo with
        | Except.error err => (inv, some err)
        | Except.ok submodules =>
            (⟨inv.Packages ++ submodules.map fun s =>
                createCommitQueryInventory s.Expected (git.pathJoin input.Path s.Path)⟩, none)

/-- A repository with one commit whose `.gitmodules` cannot be read:
`Head()` succeeds, `Worktree()` succeeds, `Submodules()` fails. -/
def brokenModulesRepo : Repository :=
  ⟨Except.ok "0123abc", Except.ok ⟨Except.error (GoError.other "malformed .gitmodules")⟩⟩

/-- A git environment in which `/src/repo` opens as `brokenModulesRepo` and
nothing else is a repository. -/
def brokenModulesEnv : GitEnv where
  PlainOpen := fun dir =>
    if dir = "/src/repo" then Except.ok brokenModulesRepo
    else Except.error (GoError.other "repository does not exist")
  pathJoin := fun a b => a ++ "/" ++ b
  filepathDir := fun p => if p = "repo/.git" then "repo" else "."

end Gitrepo

namespace OsvReporter

/-! ## The render sequence as the specification words it -/

/-- Whether the path of a directive is exactly `#stdout` or `#stderr`. -/
def takesStdStream (directive : String) : Bool :=
  decide ((parseDirective directive).2 = "#stdout")
    || decide ((parseDirective directive).2 = "#stderr")

/-- The render a directive asks for: its format, its resolved sink, width 0. -/
def directiveCall (diffVulns : VulnerabilityResults) (showAllVulns : Bool)
    (directive : String) : RenderCall :=
  ⟨diffVulns, (parseDirective directive).1, resolveWriter (parseDirective directive).2, 0,
    showAllVulns⟩

/-- The width handed to the table and annotation renders: the detected width
when no directive was supplied, 0 otherwise. -/
def trailingWidth (flags : Flags) (termWidth : Int) : Int :=
  if flags.output = [] then termWidth else 0

/-- The render sequence of a run without failure: one call per directive, the
table to stdout unless a directive names a standard stream, the annotations to
stderr when the flag is set. -/
def renderPlan (flags : Flags) (termWidth : Int) (diffVulns : VulnerabilityResults) :
    List RenderCall :=
  flags.output.map (directiveCall diffVulns flags.allVulns)
    ++ (if flags.output.any takesStdStream then []
        else [⟨diffVulns, "table", Writer.stdout, trailingWidth flags termWidth,
                flags.allVulns⟩])
    ++ (if flags.ghAnnotations then
          [⟨diffVulns, "gh-annotations", Writer.stderr, trailingWidth flags termWidth,
              flags.allVulns⟩]
        else [])

/-- The events of opening the sink of a call: a file is created, a standard
stream needs nothing. -/
def openEvents (call : RenderCall) : List Event :=
  match call.writer with
  | Writer.file path => [Event.create path none]
  | _ => []

/-- The events of one successful step: open the sink, render. -/
def okEvents (call : RenderCall) : List Event :=
  openEvents call ++ [Event.printResult call none]

/-- The events and the returned error of a step on `call` that fails with
`cause`: either its file cannot be created, or its render fails. -/
def StepFailure (call : RenderCall) (cause : GoError) (events : List Event)
    (err : GoError) : Prop :=
  (∃ path, call.writer = Writer.file path ∧ events = [Event.create path (some cause)] ∧
      err = GoError.wrap "failed to create output file" cause) ∨
  (events = openEvents call ++ [Event.printResult call (some cause)] ∧
      err = GoError.wrap "failed to write output" cause)

/-- The calls of `reporter.PrintResult` that returned without error, in order. -/
def renderedCalls : List Event → List RenderCall
  | [] => []
  | Event.printResult call none :: rest => call :: renderedCalls rest
  | _ :: rest => renderedCalls rest

/-- Every call of `reporter.PrintResult` that was made, in order. -/
def attemptedCalls : List Event → List RenderCall
  | [] => []
  | Event.printResult call _ :: rest => call :: attemptedCalls rest
  | _ :: rest => attemptedCalls rest

/-- The paths handed to `os.Create`, in order. -/
def createAttempts : List Event → List String
  | [] => []
  | Event.create path _ :: rest => path :: createAttempts rest
  | _ :: rest => createAttempts rest

/-- The paths handed to `ci.LoadVulnResults`, in order. -/
def loadAttempts : List Event → List String
  | [] => []
  | Event.load path _ :: rest => path :: loadAttempts rest
  | _ :: rest => loadAttempts rest

/-- The sink events of a trace: what was created and rendered, without the
loads and warnings. -/
def sinkEvents : List Event → List Event
  | [] => []
  | Event.create path err :: rest => Event.create path err :: sinkEvents rest
  | Event.printResult call err :: rest => Event.printResult call err :: sinkEvents rest
  | _ :: rest => sinkEvents rest

end OsvReporter

namespace OsvReporter

/-! ## Comparison runs -/

/-- The loader that acts on the world as `env.LoadVulnResults` does and never
fails: where that one fails, this one returns the empty snapshot. -/
def succeedingLoader {σ : Type} (env : Env σ) :
    σ → String → σ × Except GoError VulnerabilityResults :=
  fun w path =>
    match env.LoadVulnResults w path with
    | (w1, Except.ok v) => (w1, Except.ok v)
    | (w1, Except.error _) => (w1, Except.ok emptyResults)

/-- The environment `env` with its loader replaced. -/
def withLoader {σ : Type} (env : Env σ)
    (load : σ → String → σ × Except GoError VulnerabilityResults) : Env σ :=
  { env with LoadVulnResults := load }

/-- The environment `env` with its full diff replaced. -/
def withFullDiff {σ : Type} (env : Env σ)
    (full : VulnerabilityResults → VulnerabilityResults → VulnerabilityResults) : Env σ :=
  { env with DiffVulnerabilityResults := full }

/-- The events of creating the file of a writer, whatever the outcome. -/
def createdBy (writer : Writer) : List String :=
  match writer with
  | Writer.file path => [path]
  | _ => []

/-- Flags with one directive to a file. -/
def flagsFileOnly : Flags :=
  { baseFlags with output := ["sarif:out.sarif"] }

/-- Flags with one directive to `#stderr`. -/
def flagsStderrOnly : Flags :=
  { baseFlags with output := ["markdown:#stderr"] }

/-- Flags whose second directive names a file that cannot be created. -/
def flagsUnwritable : Flags :=
  { baseFlags with output := ["markdown:#stdout", "/ro/out.sarif", "table:late.txt"],
                   ghAnnotations := true }

/-- Flags with the annotations on and an explicit `--fail-on-vuln=false`. -/
def flagsReportOnly : Flags :=
  { baseFlags with output := ["json:out.json"], ghAnnotations := true,
                   failOnVulnIsSet := true, failOnVuln := false, allVulns := true }

/-- Flags with a file directive, a `#stderr` directive, the annotations and
the show-all filter on. -/
def flagsAnnotated : Flags :=
  { baseFlags with output := ["json:out.json", "markdown:#stderr"], ghAnnotations := true,
                   allVulns := true }

/-- The sample environment over `filesEmptyOld`, with stdout not a terminal. -/
def pipedEnv : Env (List String) :=
  { sampleEnv filesEmptyOld with termGetSize := none }

/-- The diff of scenario 2: `VULN-2`, reachable, under `pkg/lock.json`. -/
def newCalledDiff : VulnerabilityResults :=
  oneFinding "pkg/lock.json" "VULN-2" true

/-! ## The fan-out as a plan of render steps -/

/-- One render step as the specification words it: open the sink of `call`
(create the file of a file sink, nothing for a standard stream), then render
to it. The next world and the cause of the failure, if the sink could not be
opened or the render returned an error. -/
def performStep {σ : Type} (env : Env σ) (call : RenderCall) (w : σ) : σ × Option GoError :=
  match call.writer with
  | Writer.file path =>
      match env.Create w path with
      | (w1, some cause) => (w1, some cause)
      | (w1, none) => env.PrintResult w1 call
  | _ => env.PrintResult w call

/-- Performing the steps of a plan in order from the world `w`, stopping at the
first failure: the world reached, the number of steps performed before the
first failure, and the cause of that failure, if any. -/
def runPlan {σ : Type} (env : Env σ) : List RenderCall → σ → σ × Nat × Option GoError
  | [], w => (w, 0, none)
  | call :: rest, w =>
      match performStep env call w with
      | (w1, some cause) => (w1, 0, some cause)
      | (w1, none) => ((runPlan env rest w1).1, (runPlan env rest w1).2.1 + 1,
          (runPlan env rest w1).2.2)

/-- The sample environment over `filesEmptyNew` with a stdout whose writes
return the error value `ErrVulnerabilitiesFound`: every render to stdout fails
with it. -/
def sentinelStdoutEnv : Env (List String) :=
  { sampleEnv filesEmptyNew with
    PrintResult := fun w call =>
      if call.writer = Writer.stdout then (w, some GoError.ErrVulnerabilitiesFound)
      else (w, none) }

end OsvReporter

namespace OsvReporter

/-! ## Lemmas on directive parsing -/

theorem span_ne_spec (sep : Char) (l : List Char) :
    (sep ∉ l ∧ l.span (fun c => c != sep) = (l, [])) ∨
    (∃ pre post, l.span (fun c => c != sep) = (pre, sep :: post) ∧
      l = pre ++ sep :: post ∧ sep ∉ pre) := by
  simp only [List.span_eq_take_drop]
  induction l with
  | nil => left; simp
  | cons a t ih =>
    by_cases ha : a = sep
    · right
      refine ⟨[], t, ?_, ?_, ?_⟩ <;> simp [ha, List.takeWhile, List.dropWhile]
    · have hb : (a != sep) = true := by simp [ha]
      rcases ih with ⟨hni, heq⟩ | ⟨pre, post, heq, hl, hni⟩
      · left
        have h1 := (Prod.mk.inj heq).1
        have h2 := (Prod.mk.inj heq).2
        refine ⟨?_, ?_⟩
        · simp [hni, Ne.symm ha]
        · simp only [List.takeWhile, List.dropWhile, hb, h1, h2]
      · right
        have h1 := (Prod.mk.inj heq).1
        have h2 := (Prod.mk.inj heq).2
        refine ⟨a :: pre, post, ?_, ?_, ?_⟩
        · simp only [List.takeWhile, List.dropWhile, hb, h1, h2]
        · simp [hl]
        · simp [hni, Ne.symm ha]

theorem stringsCut_absent (s : String) (sep : Char) (h : sep ∉ s.toList) :
    stringsCut s sep = (s, "", false) := by
  unfold stringsCut
  rcases span_ne_spec sep s.toList with ⟨_, heq⟩ | ⟨pre, post, _, hl, _⟩
  · rw [heq]
  · exact absurd (by rw [hl]; simp) h

theorem stringsCut_present (s : String) (sep : Char) (h : sep ∈ s.toList) :
    ∃ pre post, stringsCut s sep = (String.mk pre, String.mk post, true) ∧
      s.toList = pre ++ sep :: post ∧ sep ∉ pre := by
  unfold stringsCut
  rcases span_ne_spec sep s.toList with ⟨hni, _⟩ | ⟨pre, post, heq, hl, hni⟩
  · exact absurd h hni
  · exact ⟨pre, post, by rw [heq], hl, hni⟩

end OsvReporter

namespace OsvReporter

/-! ## Lemmas on the fan-out -/

theorem resolveWriter_stdout : resolveWriter "#stdout" = Writer.stdout := by decide

theorem resolveWriter_stderr : resolveWriter "#stderr" = Writer.stderr := by decide

theorem resolveWriter_file (p : String) (h1 : p ≠ "#stdout") (h2 : p ≠ "#stderr") :
    resolveWriter p = Writer.file p := by
  simp [resolveWriter, h1, h2]

theorem directiveStep_spec {σ : Type} (env : Env σ) (d : VulnerabilityResults) (sa : Bool)
    (dir : String) (st : FanState σ) :
    ((directiveStep env d sa dir st).2 = none ∧
      (directiveStep env d sa dir st).1.trace = st.trace ++ okEvents (directiveCall d sa dir) ∧
      (directiveStep env d sa dir st).1.stdoutTaken = (st.stdoutTaken || takesStdStream dir) ∧
      (directiveStep env d sa dir st).1.termWidth = 0) ∨
    (∃ cause tail err, (directiveStep env d sa dir st).2 = some err ∧
      (directiveStep env d sa dir st).1.trace = st.trace ++ tail ∧
      StepFailure (directiveCall d sa dir) cause tail err) := by
  unfold directiveStep
  by_cases h1 : (parseDirective dir).2 = "#stdout"
  · simp only [h1, if_true]
    cases hr : (env.PrintResult st.world
        ⟨d, (parseDirective dir).1, Writer.stdout, 0, sa⟩).2 with
    | none =>
      left
      simp [okEvents, openEvents, directiveCall, takesStdStream, h1, resolveWriter_stdout]
    | some cause =>
      right
      refine ⟨cause, _, _, rfl, rfl, Or.inr ?_⟩
      simp [openEvents, directiveCall, h1, resolveWriter_stdout]
  · by_cases h2 : (parseDirective dir).2 = "#stderr"
    · simp only [h1, h2, if_true, if_false]
      cases hr : (env.PrintResult st.world
          ⟨d, (parseDirective dir).1, Writer.stderr, 0, sa⟩).2 with
      | none =>
        left
        simp [okEvents, openEvents, directiveCall, takesStdStream, h2, resolveWriter_stderr]
      | some cause =>
        right
        refine ⟨cause, _, _, rfl, rfl, Or.inr ?_⟩
        simp [openEvents, directiveCall, h2, resolveWriter_stderr]
    · simp only [h1, h2, if_false]
      cases hc : (env.Create st.world (parseDirective dir).2).2 with
      | some cause =>
        right
        refine ⟨cause, _, _, rfl, rfl, Or.inl ⟨(parseDirective dir).2, ?_, rfl, rfl⟩⟩
        simp [directiveCall, resolveWriter_file _ h1 h2]
      | none =>
        simp only []
        cases hr : (env.PrintResult (env.Create st.world (parseDirective dir).2).1
            ⟨d, (parseDirective dir).1, Writer.file (parseDirective dir).2, 0, sa⟩).2 with
        | none =>
          left
          simp [okEvents, openEvents, directiveCall, takesStdStream, h1, h2,
            resolveWriter_file _ h1 h2]
        | some cause =>
          right
          refine ⟨cause, _, _, rfl, rfl, Or.inr ?_⟩
          simp [openEvents, directiveCall, resolveWriter_file _ h1 h2]

end OsvReporter

namespace OsvReporter

theorem directiveLoop_spec {σ : Type} (env : Env σ) (d : VulnerabilityResults) (sa : Bool)
    (dirs : List String) : ∀ st : FanState σ,
    ((directiveLoop env d sa dirs st).2 = none ∧
      (directiveLoop env d sa dirs st).1.trace =
        st.trace ++ (dirs.map (directiveCall d sa)).flatMap okEvents ∧
      (directiveLoop env d sa dirs st).1.stdoutTaken =
        (st.stdoutTaken || dirs.any takesStdStream) ∧
      (directiveLoop env d sa dirs st).1.termWidth =
        (if dirs = [] then st.termWidth else 0)) ∨
    (∃ done call rest cause tail err,
      dirs.map (directiveCall d sa) = done ++ call :: rest ∧
      (directiveLoop env d sa dirs st).2 = some err ∧
      (directiveLoop env d sa dirs st).1.trace = st.trace ++ done.flatMap okEvents ++ tail ∧
      StepFailure call cause tail err) := by
  induction dirs with
  | nil => intro st; left; simp [directiveLoop]
  | cons dir rest ih =>
    intro st
    rcases directiveStep_spec env d sa dir st with ⟨h2, htr, htk, htw⟩ | ⟨cause, tail, err, h2, htr, hf⟩
    · have hstep : directiveStep env d sa dir st = ((directiveStep env d sa dir st).1, none) := by
        rw [← h2]
      have hloop : directiveLoop env d sa (dir :: rest) st =
          directiveLoop env d sa rest (directiveStep env d sa dir st).1 := by
        rw [directiveLoop, hstep]
      rw [hloop]
      rcases ih (directiveStep env d sa dir st).1 with ⟨g2, gtr, gtk, _⟩ | ⟨done, call, rest1, cause, tail, err, hm, g2, gtr, hf⟩
      · left
        refine ⟨g2, ?_, ?_, ?_⟩
        · rw [gtr, htr]; simp [List.append_assoc]
        · rw [gtk, htk]; simp [Bool.or_assoc]
        · cases rest with
          | nil => simpa [directiveLoop] using htw
          | cons r rs =>
            rcases ih (directiveStep env d sa dir st).1 with ⟨_, _, _, gtw⟩ | ⟨_, _, _, _, _, _, _, g2b, _, _⟩
            · simpa using gtw
            · rw [g2] at g2b; cases g2b
      · right
        refine ⟨directiveCall d sa dir :: done, call, rest1, cause, tail, err, ?_, g2, ?_, hf⟩
        · simp [hm]
        · rw [gtr, htr]; simp [List.append_assoc]
    · right
      have hstep : directiveStep env d sa dir st = ((directiveStep env d sa dir st).1, some err) := by
        rw [← h2]
      have hloop : directiveLoop env d sa (dir :: rest) st =
          ((directiveStep env d sa dir st).1, some err) := by
        rw [directiveLoop, hstep]
      rw [hloop]
      exact ⟨[], directiveCall d sa dir, rest.map (directiveCall d sa), cause, tail, err,
        by simp, rfl, by simp [htr], hf⟩

theorem tableStep_spec {σ : Type} (env : Env σ) (d : VulnerabilityResults) (sa : Bool)
    (st : FanState σ) :
    ((tableStep env d sa st).2 = none ∧
      (tableStep env d sa st).1.trace = st.trace ++
        (if st.stdoutTaken then []
          else okEvents ⟨d, "table", Writer.stdout, st.termWidth, sa⟩) ∧
      (tableStep env d sa st).1.termWidth = st.termWidth) ∨
    (∃ cause tail err, st.stdoutTaken = false ∧ (tableStep env d sa st).2 = some err ∧
      (tableStep env d sa st).1.trace = st.trace ++ tail ∧
      StepFailure ⟨d, "table", Writer.stdout, st.termWidth, sa⟩ cause tail err) := by
  unfold tableStep
  cases htk : st.stdoutTaken with
  | true => left; simp
  | false =>
    simp only [Bool.false_eq_true, if_false]
    cases hr : (env.PrintResult st.world ⟨d, "table", Writer.stdout, st.termWidth, sa⟩).2 with
    | none => left; simp [okEvents, openEvents]
    | some cause =>
      right
      refine ⟨cause, _, _, trivial, rfl, rfl, Or.inr ?_⟩
      simp [openEvents]

theorem annotationStep_spec {σ : Type} (env : Env σ) (d : VulnerabilityResults) (sa gh : Bool)
    (st : FanState σ) :
    ((annotationStep env d sa gh st).2 = none ∧
      (annotationStep env d sa gh st).1.trace = st.trace ++
        (if gh then okEvents ⟨d, "gh-annotations", Writer.stderr, st.termWidth, sa⟩
          else [])) ∨
    (∃ cause tail err, gh = true ∧ (annotationStep env d sa gh st).2 = some err ∧
      (annotationStep env d sa gh st).1.trace = st.trace ++ tail ∧
      StepFailure ⟨d, "gh-annotations", Writer.stderr, st.termWidth, sa⟩ cause tail err) := by
  unfold annotationStep
  cases gh with
  | false => left; simp
  | true =>
    simp only [if_true]
    cases hr : (env.PrintResult st.world
        ⟨d, "gh-annotations", Writer.stderr, st.termWidth, sa⟩).2 with
    | none => left; simp [okEvents, openEvents]
    | some cause =>
      right
      refine ⟨cause, _, _, trivial, rfl, rfl, Or.inr ?_⟩
      simp [openEvents]

end OsvReporter

namespace OsvReporter

theorem fanOut_spec {σ : Type} (env : Env σ) (flags : Flags) (tw : Int) (w : σ)
    (d : VulnerabilityResults) :
    ((fanOut env flags tw w d).2 = none ∧
      (fanOut env flags tw w d).1.trace = (renderPlan flags tw d).flatMap okEvents) ∨
    (∃ done call rest cause tail err,
      renderPlan flags tw d = done ++ call :: rest ∧
      (fanOut env flags tw w d).2 = some err ∧
      (fanOut env flags tw w d).1.trace = done.flatMap okEvents ++ tail ∧
      StepFailure call cause tail err) := by
  have hL := directiveLoop_spec env d flags.allVulns flags.output ⟨w, [], false, tw⟩
  rcases hL with ⟨l2, ltr, ltk, ltw⟩ | ⟨done, call, rest, cause, tail, err, hm, l2, ltr, hf⟩
  · -- the directive loop succeeded
    have hloop : directiveLoop env d flags.allVulns flags.output ⟨w, [], false, tw⟩ =
        ((directiveLoop env d flags.allVulns flags.output ⟨w, [], false, tw⟩).1, none) := by
      rw [← l2]
    generalize hst1 : (directiveLoop env d flags.allVulns flags.output ⟨w, [], false, tw⟩).1 = st1
      at hloop ltr ltk ltw
    have hw : st1.termWidth = trailingWidth flags tw := by
      rw [ltw]; rfl
    simp only [List.nil_append, Bool.false_or] at ltr ltk
    rcases tableStep_spec env d flags.allVulns st1 with ⟨t2, ttr, ttw⟩ | ⟨cause, tail, err, htk, t2, ttr, hf⟩
    · have htab : tableStep env d flags.allVulns st1 =
          ((tableStep env d flags.allVulns st1).1, none) := by rw [← t2]
      generalize hst2 : (tableStep env d flags.allVulns st1).1 = st2 at htab ttr ttw
      have hfan : fanOut env flags tw w d =
          annotationStep env d flags.allVulns flags.ghAnnotations st2 := by
        rw [fanOut, hloop]; simp only []; rw [htab]
      rw [hfan]
      rcases annotationStep_spec env d flags.allVulns flags.ghAnnotations st2 with ⟨a2, atr⟩ | ⟨cause, tail, err, hgh, a2, atr, hf⟩
      · left
        refine ⟨a2, ?_⟩
        rw [atr, ttr, ltr, ttw, ltk, hw]
        unfold renderPlan
        cases flags.output.any takesStdStream <;> cases flags.ghAnnotations <;> simp
      · right
        refine ⟨flags.output.map (directiveCall d flags.allVulns) ++
            (if flags.output.any takesStdStream then []
              else [⟨d, "table", Writer.stdout, trailingWidth flags tw, flags.allVulns⟩]),
          _, [], cause, tail, err, ?_, a2, ?_, hf⟩
        · unfold renderPlan
          rw [hgh, ttw, hw]; simp
        · rw [atr, ttr, ltr, ltk, hw]
          cases flags.output.any takesStdStream <;> simp
    · right
      have htab : tableStep env d flags.allVulns st1 =
          ((tableStep env d flags.allVulns st1).1, some err) := by rw [← t2]
      have hfan : fanOut env flags tw w d = ((tableStep env d flags.allVulns st1).1, some err) := by
        rw [fanOut, hloop]; simp only []; rw [htab]
      rw [hfan]
      refine ⟨flags.output.map (directiveCall d flags.allVulns), _,
        (if flags.ghAnnotations then
          [⟨d, "gh-annotations", Writer.stderr, trailingWidth flags tw, flags.allVulns⟩]
        else []), cause, tail, err, ?_, rfl, ?_, hf⟩
      · unfold renderPlan
        rw [← ltk, htk, hw]; simp
      · simp only []; rw [ttr, ltr]
  · right
    have hloop : directiveLoop env d flags.allVulns flags.output ⟨w, [], false, tw⟩ =
        ((directiveLoop env d flags.allVulns flags.output ⟨w, [], false, tw⟩).1, some err) := by
      rw [← l2]
    have hfan : fanOut env flags tw w d =
        ((directiveLoop env d flags.allVulns flags.output ⟨w, [], false, tw⟩).1, some err) := by
      rw [fanOut, hloop]
    rw [hfan]
    refine ⟨done, call, rest ++
      ((if flags.output.any takesStdStream then []
        else [⟨d, "table", Writer.stdout, trailingWidth flags tw, flags.allVulns⟩]) ++
      (if flags.ghAnnotations then
          [⟨d, "gh-annotations", Writer.stderr, trailingWidth flags tw, flags.allVulns⟩]
        else [])), cause, tail, err, ?_, rfl, ?_, hf⟩
    · unfold renderPlan
      rw [hm]; simp [List.append_assoc]
    · simp only []; rw [ltr]; simp

end OsvReporter

namespace OsvReporter

/-! ## Lemmas on traces -/

theorem renderedCalls_append (a b : List Event) :
    renderedCalls (a ++ b) = renderedCalls a ++ renderedCalls b := by
  induction a with
  | nil => rfl
  | cons e t ih =>
    cases e with
    | printResult call err => cases err <;> simp [renderedCalls, ih]
    | load p err => simp [renderedCalls, ih]
    | warnf p => simp [renderedCalls, ih]
    | create p err => simp [renderedCalls, ih]

theorem attemptedCalls_append (a b : List Event) :
    attemptedCalls (a ++ b) = attemptedCalls a ++ attemptedCalls b := by
  induction a with
  | nil => rfl
  | cons e t ih => cases e <;> simp [attemptedCalls, ih]

theorem sinkEvents_append (a b : List Event) :
    sinkEvents (a ++ b) = sinkEvents a ++ sinkEvents b := by
  induction a with
  | nil => rfl
  | cons e t ih => cases e <;> simp [sinkEvents, ih]

theorem loadAttempts_append (a b : List Event) :
    loadAttempts (a ++ b) = loadAttempts a ++ loadAttempts b := by
  induction a with
  | nil => rfl
  | cons e t ih => cases e <;> simp [loadAttempts, ih]

theorem renderedCalls_okEvents (c : RenderCall) : renderedCalls (okEvents c) = [c] := by
  unfold okEvents openEvents
  cases c.writer <;> simp [renderedCalls]

theorem attemptedCalls_okEvents (c : RenderCall) : attemptedCalls (okEvents c) = [c] := by
  unfold okEvents openEvents
  cases c.writer <;> simp [attemptedCalls]

theorem sinkEvents_okEvents (c : RenderCall) : sinkEvents (okEvents c) = okEvents c := by
  unfold okEvents openEvents
  cases c.writer <;> simp [sinkEvents]

theorem loadAttempts_okEvents (c : RenderCall) : loadAttempts (okEvents c) = [] := by
  unfold okEvents openEvents
  cases c.writer <;> simp [loadAttempts]

theorem renderedCalls_plan (plan : List RenderCall) :
    renderedCalls (plan.flatMap okEvents) = plan := by
  induction plan with
  | nil => rfl
  | cons c t ih => simp [List.flatMap_cons, renderedCalls_append, renderedCalls_okEvents, ih]

theorem attemptedCalls_plan (plan : List RenderCall) :
    attemptedCalls (plan.flatMap okEvents) = plan := by
  induction plan with
  | nil => rfl
  | cons c t ih => simp [List.flatMap_cons, attemptedCalls_append, attemptedCalls_okEvents, ih]

theorem sinkEvents_plan (plan : List RenderCall) :
    sinkEvents (plan.flatMap okEvents) = plan.flatMap okEvents := by
  induction plan with
  | nil => rfl
  | cons c t ih => simp [List.flatMap_cons, sinkEvents_append, sinkEvents_okEvents, ih]

theorem loadAttempts_plan (plan : List RenderCall) :
    loadAttempts (plan.flatMap okEvents) = [] := by
  induction plan with
  | nil => rfl
  | cons c t ih => simp [List.flatMap_cons, loadAttempts_append, loadAttempts_okEvents, ih]

theorem StepFailure.rendered {call : RenderCall} {cause : GoError} {tail : List Event}
    {err : GoError} (h : StepFailure call cause tail err) : renderedCalls tail = [] := by
  rcases h with ⟨p, _, ht, _⟩ | ⟨ht, _⟩
  · rw [ht]; rfl
  · rw [ht]; unfold openEvents; cases call.writer <;> simp [renderedCalls]

theorem StepFailure.attempted {call : RenderCall} {cause : GoError} {tail : List Event}
    {err : GoError} (h : StepFailure call cause tail err) :
    attemptedCalls tail = [] ∨ attemptedCalls tail = [call] := by
  rcases h with ⟨p, _, ht, _⟩ | ⟨ht, _⟩
  · left; rw [ht]; rfl
  · right; rw [ht]; unfold openEvents; cases call.writer <;> simp [attemptedCalls]

theorem StepFailure.sink {call : RenderCall} {cause : GoError} {tail : List Event}
    {err : GoError} (h : StepFailure call cause tail err) : sinkEvents tail = tail := by
  rcases h with ⟨p, _, ht, _⟩ | ⟨ht, _⟩
  · rw [ht]; rfl
  · rw [ht]; unfold openEvents; cases call.writer <;> simp [sinkEvents]

theorem StepFailure.loads {call : RenderCall} {cause : GoError} {tail : List Event}
    {err : GoError} (h : StepFailure call cause tail err) : loadAttempts tail = [] := by
  rcases h with ⟨p, _, ht, _⟩ | ⟨ht, _⟩
  · rw [ht]; rfl
  · rw [ht]; unfold openEvents; cases call.writer <;> simp [loadAttempts]

theorem StepFailure.wraps {call : RenderCall} {cause : GoError} {tail : List Event}
    {err : GoError} (h : StepFailure call cause tail err) :
    ∃ msg, err = GoError.wrap msg cause := by
  rcases h with ⟨p, _, _, he⟩ | ⟨_, he⟩
  · exact ⟨_, he⟩
  · exact ⟨_, he⟩

theorem loadSnapshots_trace {σ : Type} (env : Env σ) (flags : Flags) (w : σ) :
    renderedCalls (loadSnapshots env flags w).trace = [] ∧
    attemptedCalls (loadSnapshots env flags w).trace = [] ∧
    sinkEvents (loadSnapshots env flags w).trace = [] := by
  unfold loadSnapshots loadOld loadNew
  simp only []
  by_cases ho : flags.old = ""
  · simp only [ho, ne_eq, not_true_eq_false, if_false]
    rcases hn : env.LoadVulnResults w flags.new with ⟨w1, r⟩
    cases r <;> simp [renderedCalls, attemptedCalls, sinkEvents]
  · simp only [ho, ne_eq, not_false_eq_true, if_true]
    rcases h1 : env.LoadVulnResults w flags.old with ⟨w1, r⟩
    cases r <;> simp only [] <;>
      (rcases hn : env.LoadVulnResults w1 flags.new with ⟨w2, r2⟩
       cases r2 <;> simp [renderedCalls, attemptedCalls, sinkEvents])

theorem Action_err {σ : Type} (env : Env σ) (flags : Flags) (w : σ) :
    (Action env flags w).err =
      match (actionFanOut env flags w).2 with
      | some err => some err
      | none => gate flags (actionDiff env flags w) := by
  unfold Action actionFanOut actionDiff reportAndGate
  simp only []
  rcases hf : fanOut env flags (detectTermWidth env.termGetSize)
      (loadSnapshots env flags w).world
      (selectDiff env (loadSnapshots env flags w).oldVulns
        (loadSnapshots env flags w).newVulns) with ⟨st, r⟩
  cases r <;> rfl

theorem Action_trace {σ : Type} (env : Env σ) (flags : Flags) (w : σ) :
    (Action env flags w).trace =
      (loadSnapshots env flags w).trace ++ (actionFanOut env flags w).1.trace := by
  unfold Action actionFanOut actionDiff reportAndGate
  simp only []
  rcases hf : fanOut env flags (detectTermWidth env.termGetSize)
      (loadSnapshots env flags w).world
      (selectDiff env (loadSnapshots env flags w).oldVulns
        (loadSnapshots env flags w).newVulns) with ⟨st, r⟩
  cases r <;> rfl

theorem Action_world {σ : Type} (env : Env σ) (flags : Flags) (w : σ) :
    (Action env flags w).world = (actionFanOut env flags w).1.world := by
  unfold Action actionFanOut actionDiff reportAndGate
  simp only []
  rcases hf : fanOut env flags (detectTermWidth env.termGetSize)
      (loadSnapshots env flags w).world
      (selectDiff env (loadSnapshots env flags w).oldVulns
        (loadSnapshots env flags w).newVulns) with ⟨st, r⟩
  cases r <;> rfl

end OsvReporter

namespace OsvReporter

/-! ## Lemmas on the gate -/

theorem anyIsCalled_iff (l : List VulnerabilityFlattened) :
    anyIsCalled l = true ↔ ∃ t ∈ l, t.GroupInfo.IsCalled = true := by
  induction l with
  | nil => simp [anyIsCalled]
  | cons v rest ih =>
    unfold anyIsCalled
    by_cases hv : v.GroupInfo.IsCalled = true
    · simp [hv]
    · simp [hv, ih]

theorem Flatten_of_no_sources (d : VulnerabilityResults) (h : d.Results = []) :
    d.Flatten = [] := by
  simp [VulnerabilityResults.Flatten, h]

theorem gate_eq_some_iff (flags : Flags) (d : VulnerabilityResults) :
    gate flags d = some GoError.ErrVulnerabilitiesFound ↔
      (failOnVulnOf flags = true ∧ ∃ t ∈ d.Flatten, t.GroupInfo.IsCalled = true) := by
  unfold gate
  constructor
  · intro h
    by_cases hc : (decide (d.Results.length > 0) && failOnVulnOf flags
        && anyIsCalled d.Flatten) = true
    · simp only [Bool.and_eq_true] at hc
      exact ⟨hc.1.2, (anyIsCalled_iff _).1 hc.2⟩
    · rw [if_neg hc] at h; cases h
  · rintro ⟨hf, t, ht, hc⟩
    have hany : anyIsCalled d.Flatten = true := (anyIsCalled_iff _).2 ⟨t, ht, hc⟩
    have hlen : d.Results.length > 0 := by
      rcases hres : d.Results with _ | ⟨r, rs⟩
      · rw [Flatten_of_no_sources d hres] at ht; cases ht
      · simp
    simp [hf, hany, hlen]

theorem gate_cases (flags : Flags) (d : VulnerabilityResults) :
    gate flags d = none ∨ gate flags d = some GoError.ErrVulnerabilitiesFound := by
  unfold gate
  split
  · right; rfl
  · left; rfl

theorem gate_eq_none_iff (flags : Flags) (d : VulnerabilityResults) :
    gate flags d = none ↔
      ¬ (failOnVulnOf flags = true ∧ ∃ t ∈ d.Flatten, t.GroupInfo.IsCalled = true) := by
  rw [← gate_eq_some_iff]
  rcases gate_cases flags d with h | h <;> simp [h]

theorem gate_congr (f1 f2 : Flags) (d : VulnerabilityResults)
    (h : failOnVulnOf f1 = failOnVulnOf f2) : gate f1 d = gate f2 d := by
  unfold gate
  rw [h]

theorem failOnVulnOf_iff (flags : Flags) :
    failOnVulnOf flags = true ↔ (flags.failOnVulnIsSet = false ∨ flags.failOnVuln = true) := by
  unfold failOnVulnOf
  cases flags.failOnVulnIsSet <;> cases flags.failOnVuln <;> simp

theorem reportAndGate_err_of_ok {σ : Type} (env : Env σ) (flags : Flags) (tw : Int) (w : σ)
    (d : VulnerabilityResults) (hfan : (fanOut env flags tw w d).2 = none) :
    (reportAndGate env flags tw w d).err = gate flags d := by
  unfold reportAndGate
  rcases hf : fanOut env flags tw w d with ⟨st, r⟩
  rw [hf] at hfan
  simp only [] at hfan
  subst hfan
  rfl

theorem reportAndGate_err_of_fail {σ : Type} (env : Env σ) (flags : Flags) (tw : Int) (w : σ)
    (d : VulnerabilityResults) (err : GoError) (hfan : (fanOut env flags tw w d).2 = some err) :
    (reportAndGate env flags tw w d).err = some err := by
  unfold reportAndGate
  rcases hf : fanOut env flags tw w d with ⟨st, r⟩
  rw [hf] at hfan
  simp only [] at hfan
  subst hfan
  rfl

theorem reportAndGate_trace {σ : Type} (env : Env σ) (flags : Flags) (tw : Int) (w : σ)
    (d : VulnerabilityResults) :
    (reportAndGate env flags tw w d).trace = (fanOut env flags tw w d).1.trace := by
  unfold reportAndGate
  rcases hf : fanOut env flags tw w d with ⟨st, r⟩
  cases r <;> rfl

/-! ## Lemmas on the exit code -/

theorem wrap_Is_sentinel (msg : String) (cause : GoError) :
    (GoError.wrap msg cause).Is GoError.ErrVulnerabilitiesFound =
      cause.Is GoError.ErrVulnerabilitiesFound := by
  simp [GoError.Is]

theorem exitCode_ne_zero_of_err (logger : Logger) (e : GoError) :
    exitCode logger (some e) ≠ 0 := by
  unfold exitCode Logger.Errorf
  simp only []
  split_ifs <;> simp

theorem exitCode_ne_one_of_not_gate (logger : Logger) (e : GoError)
    (h : e.Is GoError.ErrVulnerabilitiesFound = false) : exitCode logger (some e) ≠ 1 := by
  unfold exitCode Logger.Errorf
  simp only [h]
  split_ifs <;> first | contradiction | simp

end OsvReporter

namespace OsvReporter

/-! ## Claims -/

/-- C1 (gate verdict): after a successful report fan-out on the diff `d`, the
`Action` returns `ErrVulnerabilitiesFound` exactly when fail-on-vuln is in
force (the flag is unset, or set to true) and some tuple of `d.Flatten` is
called; it returns no error otherwise. In particular a diff with zero sources
passes, a diff whose groups are all uncalled passes, and an explicit
`--fail-on-vuln=false` passes for every diff. -/
theorem gate_verdict {σ : Type} (env : Env σ) (flags : Flags) (tw : Int) (w : σ)
    (d : VulnerabilityResults) (hfan : (fanOut env flags tw w d).2 = none) :
    ((reportAndGate env flags tw w d).err = some GoError.ErrVulnerabilitiesFound ↔
      ((flags.failOnVulnIsSet = false ∨ flags.failOnVuln = true) ∧
        ∃ t ∈ d.Flatten, t.GroupInfo.IsCalled = true)) ∧
    ((reportAndGate env flags tw w d).err = none ↔
      ¬ ((flags.failOnVulnIsSet = false ∨ flags.failOnVuln = true) ∧
        ∃ t ∈ d.Flatten, t.GroupInfo.IsCalled = true)) ∧
    (d.Results = [] → (reportAndGate env flags tw w d).err = none) ∧
    ((∀ t ∈ d.Flatten, t.GroupInfo.IsCalled = false) →
      (reportAndGate env flags tw w d).err = none) ∧
    (flags.failOnVulnIsSet = true → flags.failOnVuln = false →
      (reportAndGate env flags tw w d).err = none) := by
  rw [reportAndGate_err_of_ok env flags tw w d hfan, gate_eq_some_iff, gate_eq_none_iff,
    failOnVulnOf_iff]
  refine ⟨Iff.rfl, Iff.rfl, ?_, ?_, ?_⟩
  · intro hres
    rw [Flatten_of_no_sources d hres]
    simp
  · intro hall
    rintro ⟨_, t, ht, hc⟩
    rw [hall t ht] at hc
    cases hc
  · intro hset hval
    rintro ⟨hf, _⟩
    rcases hf with hf | hf
    · rw [hset] at hf; cases hf
    · rw [hval] at hf; cases hf

/-- C2 (exit classification): for every logger state and every error returned
by the command, `run` exits with 130 when an invalid-configuration error was
logged; otherwise 1 when the error matches `ErrVulnerabilitiesFound`; otherwise
128 when it matches `ErrNoPackagesFound`; otherwise 127 when an error was
logged or the error is non-nil; otherwise 0. No other code is returned. -/
theorem exitCode_classification (logger : Logger) (err : Option GoError) :
    exitCode logger err =
      (if logger.hasErroredBecauseInvalidConfig = true then 130
       else if errorsIs err GoError.ErrVulnerabilitiesFound = true then 1
       else if errorsIs err GoError.ErrNoPackagesFound = true then 128
       else if logger.hasErrored = true ∨ err ≠ none then 127
       else 0) ∧
    exitCode logger err ∈ [130, 1, 128, 127, 0] := by
  unfold exitCode errorsIs Logger.Errorf
  cases err with
  | none =>
    simp only []
    split_ifs <;> simp_all
  | some e =>
    simp only []
    split_ifs <;> simp_all

end OsvReporter

namespace OsvReporter

theorem createAttempts_append (a b : List Event) :
    createAttempts (a ++ b) = createAttempts a ++ createAttempts b := by
  induction a with
  | nil => rfl
  | cons e t ih => cases e <;> simp [createAttempts, ih]

theorem resolveWriter_eq_stdout (p : String) :
    resolveWriter p = Writer.stdout ↔ p = "#stdout" := by
  unfold resolveWriter
  by_cases h1 : p = "#stdout"
  · simp [h1]
  · by_cases h2 : p = "#stderr" <;> simp [h1, h2]

theorem resolveWriter_eq_stderr (p : String) :
    resolveWriter p = Writer.stderr ↔ p = "#stderr" := by
  unfold resolveWriter
  by_cases h1 : p = "#stdout"
  · subst h1; simp
  · by_cases h2 : p = "#stderr" <;> simp [h1, h2]

theorem directiveStep_creates {σ : Type} (env : Env σ) (d : VulnerabilityResults) (sa : Bool)
    (dir : String) (st : FanState σ) :
    createAttempts (directiveStep env d sa dir st).1.trace =
      createAttempts st.trace ++ createdBy (resolveWriter (parseDirective dir).2) := by
  rcases directiveStep_spec env d sa dir st with ⟨_, htr, _, _⟩ | ⟨cause, tail, err, _, htr, hf⟩
  · rw [htr, createAttempts_append]
    congr 1
    unfold okEvents openEvents directiveCall createdBy
    simp only []
    cases resolveWriter (parseDirective dir).2 <;> simp [createAttempts]
  · rw [htr, createAttempts_append]
    congr 1
    rcases hf with ⟨p, hw, ht, _⟩ | ⟨ht, _⟩
    · have hw2 : resolveWriter (parseDirective dir).2 = Writer.file p := hw
      rw [ht, hw2]; rfl
    · rw [ht]
      unfold openEvents directiveCall createdBy
      simp only []
      cases resolveWriter (parseDirective dir).2 <;> simp [createAttempts]

/-- C4 (directive parsing): without a colon the format is `sarif` and the path
is the whole directive; with a colon the format is the text before the first
colon and the path everything after it. The path resolves to stdout exactly
when it is `#stdout`, to stderr exactly when it is `#stderr`, and otherwise to
a file, which the directive step creates at that path and at no other. -/
theorem directive_parsing (s : String) :
    (':' ∉ s.toList → parseDirective s = ("sarif", s)) ∧
    (':' ∈ s.toList →
      (parseDirective s).1 ++ ":" ++ (parseDirective s).2 = s ∧
      ':' ∉ (parseDirective s).1.toList) ∧
    (∀ p : String, (resolveWriter p = Writer.stdout ↔ p = "#stdout") ∧
      (resolveWriter p = Writer.stderr ↔ p = "#stderr") ∧
      (p ≠ "#stdout" → p ≠ "#stderr" → resolveWriter p = Writer.file p)) ∧
    (∀ (σ : Type) (env : Env σ) (d : VulnerabilityResults) (sa : Bool) (st : FanState σ),
      createAttempts (directiveStep env d sa s st).1.trace =
        createAttempts st.trace ++
          (if (parseDirective s).2 = "#stdout" ∨ (parseDirective s).2 = "#stderr" then []
           else [(parseDirective s).2])) := by
  refine ⟨?_, ?_, ?_, ?_⟩
  · intro h
    unfold parseDirective
    rw [stringsCut_absent s ':' h]
  · intro h
    obtain ⟨pre, post, hcut, hl, hni⟩ := stringsCut_present s ':' h
    unfold parseDirective
    rw [hcut]
    refine ⟨?_, hni⟩
    apply String.ext
    simp only [String.data_append]
    have : s.data = pre ++ ':' :: post := hl
    rw [this]
    simp
  · intro p
    exact ⟨resolveWriter_eq_stdout p, resolveWriter_eq_stderr p, resolveWriter_file p⟩
  · intro σ env d sa st
    rw [directiveStep_creates]
    congr 1
    unfold resolveWriter createdBy
    by_cases h1 : (parseDirective s).2 = "#stdout"
    · simp [h1]
    · by_cases h2 : (parseDirective s).2 = "#stderr" <;> simp [h1, h2]

/-- Witness of C4 on the directives `markdown:./out.md`, `a:b:c` and
`out.sarif`. -/
theorem directive_parsing_witness :
    parseDirective "out.sarif" = ("sarif", "out.sarif") ∧
    parseDirective "markdown:./out.md" = ("markdown", "./out.md") ∧
    parseDirective "a:b:c" = ("a", "b:c") ∧
    (parseDirective "a:b:c").1 ++ ":" ++ (parseDirective "a:b:c").2 = "a:b:c" :=
  ⟨(directive_parsing "out.sarif").1 (by decide), by decide, by decide,
    ((directive_parsing "a:b:c").2.1 (by decide)).1⟩

end OsvReporter

namespace OsvReporter

/-! ## Lemmas on snapshot loading and diff selection -/

theorem directiveLoop_withLoader {σ : Type} (env : Env σ)
    (load : σ → String → σ × Except GoError VulnerabilityResults)
    (d : VulnerabilityResults) (sa : Bool) (dirs : List String) :
    ∀ st : FanState σ,
      directiveLoop (withLoader env load) d sa dirs st = directiveLoop env d sa dirs st := by
  induction dirs with
  | nil => intro st; rfl
  | cons dir rest ih =>
    intro st
    have hstep : directiveStep (withLoader env load) d sa dir st =
        directiveStep env d sa dir st := rfl
    rw [directiveLoop, directiveLoop, hstep]
    rcases directiveStep env d sa dir st with ⟨st1, r⟩
    cases r with
    | none => exact ih st1
    | some e => rfl

theorem fanOut_withLoader {σ : Type} (env : Env σ)
    (load : σ → String → σ × Except GoError VulnerabilityResults)
    (flags : Flags) (tw : Int) (w : σ) (d : VulnerabilityResults) :
    fanOut (withLoader env load) flags tw w d = fanOut env flags tw w d := by
  unfold fanOut
  rw [directiveLoop_withLoader]
  rfl

theorem loadOld_succeeding {σ : Type} (env : Env σ) (oldPath : String) (w : σ) :
    (loadOld (withLoader env (succeedingLoader env)) oldPath w).1 = (loadOld env oldPath w).1 ∧
    (loadOld (withLoader env (succeedingLoader env)) oldPath w).2.2 =
      (loadOld env oldPath w).2.2 := by
  unfold loadOld withLoader succeedingLoader
  by_cases h : oldPath = ""
  · simp [h]
  · simp only [ne_eq, h, not_false_eq_true, if_true]
    rcases env.LoadVulnResults w oldPath with ⟨w1, r⟩
    cases r <;> exact ⟨rfl, rfl⟩

theorem loadNew_succeeding {σ : Type} (env : Env σ) (newPath : String) (w : σ) :
    (loadNew (withLoader env (succeedingLoader env)) newPath w).1 = (loadNew env newPath w).1 ∧
    (loadNew (withLoader env (succeedingLoader env)) newPath w).2.2 =
      (loadNew env newPath w).2.2 := by
  unfold loadNew withLoader succeedingLoader
  simp only []
  rcases env.LoadVulnResults w newPath with ⟨w1, r⟩
  cases r <;> exact ⟨rfl, rfl⟩

theorem loadSnapshots_succeeding {σ : Type} (env : Env σ) (flags : Flags) (w : σ) :
    (loadSnapshots (withLoader env (succeedingLoader env)) flags w).world =
      (loadSnapshots env flags w).world ∧
    (loadSnapshots (withLoader env (succeedingLoader env)) flags w).oldVulns =
      (loadSnapshots env flags w).oldVulns ∧
    (loadSnapshots (withLoader env (succeedingLoader env)) flags w).newVulns =
      (loadSnapshots env flags w).newVulns := by
  unfold loadSnapshots
  simp only []
  have ho := loadOld_succeeding env flags.old w
  rw [ho.1]
  have hn := loadNew_succeeding env flags.new (loadOld env flags.old w).1
  exact ⟨hn.1, ho.2, hn.2⟩

theorem actionDiff_succeeding {σ : Type} (env : Env σ) (flags : Flags) (w : σ) :
    actionDiff (withLoader env (succeedingLoader env)) flags w = actionDiff env flags w := by
  have h := loadSnapshots_succeeding env flags w
  unfold actionDiff
  rw [h.2.1, h.2.2]
  rfl

theorem actionFanOut_succeeding {σ : Type} (env : Env σ) (flags : Flags) (w : σ) :
    actionFanOut (withLoader env (succeedingLoader env)) flags w = actionFanOut env flags w := by
  have h := loadSnapshots_succeeding env flags w
  unfold actionFanOut
  rw [actionDiff_succeeding, h.1, fanOut_withLoader]
  rfl

theorem Action_sinkEvents {σ : Type} (env : Env σ) (flags : Flags) (w : σ) :
    sinkEvents (Action env flags w).trace = sinkEvents (actionFanOut env flags w).1.trace := by
  rw [Action_trace, sinkEvents_append, (loadSnapshots_trace env flags w).2.2]
  rfl

theorem Action_renderedCalls {σ : Type} (env : Env σ) (flags : Flags) (w : σ) :
    renderedCalls (Action env flags w).trace =
      renderedCalls (actionFanOut env flags w).1.trace := by
  rw [Action_trace, renderedCalls_append, (loadSnapshots_trace env flags w).1]
  rfl

theorem Action_attemptedCalls {σ : Type} (env : Env σ) (flags : Flags) (w : σ) :
    attemptedCalls (Action env flags w).trace =
      attemptedCalls (actionFanOut env flags w).1.trace := by
  rw [Action_trace, attemptedCalls_append, (loadSnapshots_trace env flags w).2.1]
  rfl

theorem actionFanOut_spec {σ : Type} (env : Env σ) (flags : Flags) (w : σ) :
    ((actionFanOut env flags w).2 = none ∧
      (actionFanOut env flags w).1.trace =
        (renderPlan flags (detectTermWidth env.termGetSize)
          (actionDiff env flags w)).flatMap okEvents) ∨
    (∃ done call rest cause tail err,
      renderPlan flags (detectTermWidth env.termGetSize) (actionDiff env flags w) =
        done ++ call :: rest ∧
      (actionFanOut env flags w).2 = some err ∧
      (actionFanOut env flags w).1.trace = done.flatMap okEvents ++ tail ∧
      StepFailure call cause tail err) :=
  fanOut_spec env flags (detectTermWidth env.termGetSize) (loadSnapshots env flags w).world
    (actionDiff env flags w)

theorem renderPlan_diff (flags : Flags) (tw : Int) (d : VulnerabilityResults) :
    ∀ c ∈ renderPlan flags tw d, c.diff = d ∧ c.showAll = flags.allVulns := by
  intro c hc
  unfold renderPlan at hc
  simp only [List.mem_append, List.mem_map] at hc
  rcases hc with (⟨dir, _, rfl⟩ | hc) | hc
  · exact ⟨rfl, rfl⟩
  · split at hc
    · cases hc
    · simp only [List.mem_singleton] at hc; subst hc; exact ⟨rfl, rfl⟩
  · split at hc
    · simp only [List.mem_singleton] at hc; subst hc; exact ⟨rfl, rfl⟩
    · cases hc

theorem actionFanOut_attempted_mem {σ : Type} (env : Env σ) (flags : Flags) (w : σ) :
    ∀ c ∈ attemptedCalls (actionFanOut env flags w).1.trace,
      c ∈ renderPlan flags (detectTermWidth env.termGetSize) (actionDiff env flags w) := by
  intro c hc
  rcases actionFanOut_spec env flags w with ⟨_, htr⟩ | ⟨done, call, rest, cause, tail, err, hp, _, htr, hf⟩
  · rw [htr, attemptedCalls_plan] at hc
    exact hc
  · rw [htr, attemptedCalls_append, attemptedCalls_plan] at hc
    rw [hp]
    rcases List.mem_append.1 hc with h | h
    · exact List.mem_append_left _ h
    · rcases hf.attempted with ht | ht
      · rw [ht] at h; cases h
      · rw [ht] at h
        rw [List.mem_singleton.1 h]
        exact List.mem_append_right _ (List.mem_cons_self _ _)

end OsvReporter

namespace OsvReporter

/-! ## An environment without failures -/

theorem directiveStep_ok_of_never_failing {σ : Type} (env : Env σ)
    (hc : ∀ w p, (env.Create w p).2 = none) (hp : ∀ w c, (env.PrintResult w c).2 = none)
    (d : VulnerabilityResults) (sa : Bool) (dir : String) (st : FanState σ) :
    (directiveStep env d sa dir st).2 = none := by
  unfold directiveStep
  simp only []
  split_ifs
  · simp [hp]
  · simp [hp]
  · rw [hc]
    simp [hp]

theorem directiveLoop_ok_of_never_failing {σ : Type} (env : Env σ)
    (hc : ∀ w p, (env.Create w p).2 = none) (hp : ∀ w c, (env.PrintResult w c).2 = none)
    (d : VulnerabilityResults) (sa : Bool) (dirs : List String) :
    ∀ st : FanState σ, (directiveLoop env d sa dirs st).2 = none := by
  induction dirs with
  | nil => intro st; rfl
  | cons dir rest ih =>
    intro st
    have hs := directiveStep_ok_of_never_failing env hc hp d sa dir st
    rw [directiveLoop]
    rcases hstep : directiveStep env d sa dir st with ⟨st1, r⟩
    rw [hstep] at hs
    simp only [] at hs
    subst hs
    exact ih st1

theorem fanOut_ok_of_never_failing {σ : Type} (env : Env σ)
    (hc : ∀ w p, (env.Create w p).2 = none) (hp : ∀ w c, (env.PrintResult w c).2 = none)
    (flags : Flags) (tw : Int) (w : σ) (d : VulnerabilityResults) :
    (fanOut env flags tw w d).2 = none := by
  unfold fanOut
  have hl := directiveLoop_ok_of_never_failing env hc hp d flags.allVulns flags.output
    ⟨w, [], false, tw⟩
  rcases hloop : directiveLoop env d flags.allVulns flags.output ⟨w, [], false, tw⟩ with ⟨st1, r⟩
  rw [hloop] at hl
  simp only [] at hl
  subst hl
  simp only []
  have ht : (tableStep env d flags.allVulns st1).2 = none := by
    unfold tableStep
    split_ifs
    · rfl
    · simp [hp]
  rcases htab : tableStep env d flags.allVulns st1 with ⟨st2, r2⟩
  rw [htab] at ht
  simp only [] at ht
  subst ht
  simp only []
  unfold annotationStep
  split_ifs
  · simp [hp]
  · rfl

end OsvReporter

namespace OsvReporter

/-! ## The fan-out performs the render plan -/

theorem directiveStep_performs {σ : Type} (env : Env σ) (d : VulnerabilityResults) (sa : Bool)
    (dir : String) (st : FanState σ) :
    (directiveStep env d sa dir st).1.world =
      (performStep env (directiveCall d sa dir) st.world).1 ∧
    ((performStep env (directiveCall d sa dir) st.world).2 = none →
      (directiveStep env d sa dir st).2 = none) ∧
    (∀ cause, (performStep env (directiveCall d sa dir) st.world).2 = some cause →
      ∃ tail err, (directiveStep env d sa dir st).2 = some err ∧
        (directiveStep env d sa dir st).1.trace = st.trace ++ tail ∧
        StepFailure (directiveCall d sa dir) cause tail err) := by
  unfold directiveStep performStep
  by_cases h1 : (parseDirective dir).2 = "#stdout"
  · have hw : (directiveCall d sa dir).writer = Writer.stdout := by
      simp [directiveCall, h1, resolveWriter_stdout]
    have hcall : directiveCall d sa dir = ⟨d, (parseDirective dir).1, Writer.stdout, 0, sa⟩ := by
      simp [directiveCall, h1, resolveWriter_stdout]
    simp only [h1, if_true, hw]
    rw [hcall]
    refine ⟨rfl, ?_, ?_⟩
    · intro h; simp [h]
    · intro cause h
      refine ⟨_, _, by simp only [h]; rfl, rfl, Or.inr ?_⟩
      simp [openEvents, h]
  · by_cases h2 : (parseDirective dir).2 = "#stderr"
    · have hw : (directiveCall d sa dir).writer = Writer.stderr := by
        simp [directiveCall, h2, resolveWriter_stderr]
      have hcall : directiveCall d sa dir =
          ⟨d, (parseDirective dir).1, Writer.stderr, 0, sa⟩ := by
        simp [directiveCall, h2, resolveWriter_stderr]
      simp only [h1, h2, if_true, if_false, hw]
      rw [hcall]
      refine ⟨rfl, ?_, ?_⟩
      · intro h; simp [h]
      · intro cause h
        refine ⟨_, _, by simp only [h]; rfl, rfl, Or.inr ?_⟩
        simp [openEvents, h]
    · have hw : (directiveCall d sa dir).writer = Writer.file (parseDirective dir).2 := by
        simp [directiveCall, resolveWriter_file _ h1 h2]
      have hcall : directiveCall d sa dir =
          ⟨d, (parseDirective dir).1, Writer.file (parseDirective dir).2, 0, sa⟩ := by
        simp [directiveCall, resolveWriter_file _ h1 h2]
      simp only [h1, h2, if_false, hw]
      rw [hcall]
      rcases hc : env.Create st.world (parseDirective dir).2 with ⟨w1, c⟩
      cases c with
      | some cause0 =>
        simp only []
        refine ⟨trivial, ?_, ?_⟩
        · intro h; cases h
        · intro cause h
          cases h
          exact ⟨_, _, rfl, rfl, Or.inl ⟨(parseDirective dir).2, rfl, rfl, rfl⟩⟩
      | none =>
        simp only []
        refine ⟨trivial, ?_, ?_⟩
        · intro h; simp [h]
        · intro cause h
          refine ⟨_, _, by simp only [h]; rfl, rfl, Or.inr ?_⟩
          simp [openEvents, h]

theorem runPlan_length_of_ok {σ : Type} (env : Env σ) (plan : List RenderCall) :
    ∀ w : σ, (runPlan env plan w).2.2 = none → (runPlan env plan w).2.1 = plan.length := by
  induction plan with
  | nil => intro w _; rfl
  | cons call rest ih =>
    intro w h
    rcases hp : performStep env call w with ⟨w1, r⟩
    cases r with
    | some cause => simp [runPlan, hp] at h
    | none =>
      simp only [runPlan, hp] at h ⊢
      rw [ih w1 h]
      rfl

theorem runPlan_append_of_ok {σ : Type} (env : Env σ) (a b : List RenderCall) :
    ∀ w : σ, (runPlan env a w).2.2 = none →
      (runPlan env (a ++ b) w).1 = (runPlan env b (runPlan env a w).1).1 ∧
      (runPlan env (a ++ b) w).2.1 = a.length + (runPlan env b (runPlan env a w).1).2.1 ∧
      (runPlan env (a ++ b) w).2.2 = (runPlan env b (runPlan env a w).1).2.2 := by
  induction a with
  | nil => intro w _; simp [runPlan]
  | cons call rest ih =>
    intro w h
    rcases hp : performStep env call w with ⟨w1, r⟩
    cases r with
    | some cause => simp [runPlan, hp] at h
    | none =>
      simp only [runPlan, hp, List.cons_append, List.append_eq] at h ⊢
      obtain ⟨h1, h2, h3⟩ := ih w1 h
      refine ⟨h1, ?_, h3⟩
      rw [h2]
      simp only [List.length_cons]
      omega

theorem runPlan_append_of_fail {σ : Type} (env : Env σ) (a b : List RenderCall) :
    ∀ (w : σ) (cause : GoError), (runPlan env a w).2.2 = some cause →
      (runPlan env (a ++ b) w).2 = (runPlan env a w).2 := by
  induction a with
  | nil => intro w cause h; simp [runPlan] at h
  | cons call rest ih =>
    intro w cause h
    rcases hp : performStep env call w with ⟨w1, r⟩
    cases r with
    | some c => simp [runPlan, hp]
    | none =>
      simp only [runPlan, hp, List.cons_append, List.append_eq] at h ⊢
      have := ih w1 cause h
      rw [Prod.ext_iff] at this
      rw [this.1, this.2]

theorem directiveLoop_performs {σ : Type} (env : Env σ) (d : VulnerabilityResults) (sa : Bool)
    (dirs : List String) : ∀ st : FanState σ,
    ((runPlan env (dirs.map (directiveCall d sa)) st.world).2.2 = none →
      (directiveLoop env d sa dirs st).2 = none ∧
      (directiveLoop env d sa dirs st).1.world =
        (runPlan env (dirs.map (directiveCall d sa)) st.world).1) ∧
    (∀ cause, (runPlan env (dirs.map (directiveCall d sa)) st.world).2.2 = some cause →
      ∃ done call rest tail err,
        dirs.map (directiveCall d sa) = done ++ call :: rest ∧
        done.length = (runPlan env (dirs.map (directiveCall d sa)) st.world).2.1 ∧
        (directiveLoop env d sa dirs st).2 = some err ∧
        (directiveLoop env d sa dirs st).1.trace = st.trace ++ done.flatMap okEvents ++ tail ∧
        StepFailure call cause tail err) := by
  induction dirs with
  | nil =>
    intro st
    constructor
    · intro _
      exact ⟨rfl, rfl⟩
    · intro cause h
      simp [runPlan] at h
  | cons dir rest ih =>
    intro st
    obtain ⟨hw, hok, hfail⟩ := directiveStep_performs env d sa dir st
    rcases hp : performStep env (directiveCall d sa dir) st.world with ⟨w1, r⟩
    rw [hp] at hw hok hfail
    simp only [] at hw hok hfail
    cases r with
    | some c =>
      have hrun : runPlan env (directiveCall d sa dir :: rest.map (directiveCall d sa))
          st.world = (w1, 0, some c) := by
        simp only [runPlan, hp]
      rw [List.map_cons, hrun]
      refine ⟨fun h => Option.noConfusion h, ?_⟩
      intro cause h
      cases h
      obtain ⟨tail, err, h2, htr, hf⟩ := hfail c rfl
      have hstep : directiveStep env d sa dir st =
          ((directiveStep env d sa dir st).1, some err) := by rw [← h2]
      have hloop : directiveLoop env d sa (dir :: rest) st =
          ((directiveStep env d sa dir st).1, some err) := by
        rw [directiveLoop, hstep]
      rw [hloop]
      exact ⟨[], directiveCall d sa dir, rest.map (directiveCall d sa), tail, err,
        by simp, rfl, rfl, by simp [htr], hf⟩
    | none =>
      have h2 := hok rfl
      have hstep : directiveStep env d sa dir st =
          ((directiveStep env d sa dir st).1, none) := by rw [← h2]
      have hloop : directiveLoop env d sa (dir :: rest) st =
          directiveLoop env d sa rest (directiveStep env d sa dir st).1 := by
        rw [directiveLoop, hstep]
      have htr : (directiveStep env d sa dir st).1.trace =
          st.trace ++ okEvents (directiveCall d sa dir) := by
        rcases directiveStep_spec env d sa dir st with ⟨_, htr, _, _⟩ | ⟨_, _, err, h2b, _, _⟩
        · exact htr
        · rw [h2] at h2b; cases h2b
      have hrun : runPlan env (directiveCall d sa dir :: rest.map (directiveCall d sa))
          st.world = ((runPlan env (rest.map (directiveCall d sa)) w1).1,
            (runPlan env (rest.map (directiveCall d sa)) w1).2.1 + 1,
            (runPlan env (rest.map (directiveCall d sa)) w1).2.2) := by
        simp only [runPlan, hp]
      rw [hloop, List.map_cons, hrun]
      obtain ⟨ihok, ihfail⟩ := ih (directiveStep env d sa dir st).1
      rw [hw] at ihok ihfail
      refine ⟨ihok, ?_⟩
      intro cause h
      obtain ⟨done, call, rest1, tail, err, hm, hlen, g2, gtr, hf⟩ := ihfail cause h
      refine ⟨directiveCall d sa dir :: done, call, rest1, tail, err, ?_, ?_, g2, ?_, hf⟩
      · simp [hm]
      · simp [hlen]
      · rw [gtr, htr]; simp [List.append_assoc]

theorem tableStep_performs {σ : Type} (env : Env σ) (d : VulnerabilityResults) (sa : Bool)
    (st : FanState σ) :
    ((runPlan env (if st.stdoutTaken then []
        else [(⟨d, "table", Writer.stdout, st.termWidth, sa⟩ : RenderCall)]) st.world).2.2 =
          none →
      (tableStep env d sa st).2 = none ∧
      (tableStep env d sa st).1.world =
        (runPlan env (if st.stdoutTaken then []
          else [(⟨d, "table", Writer.stdout, st.termWidth, sa⟩ : RenderCall)]) st.world).1 ∧
      (tableStep env d sa st).1.trace = st.trace ++
        (if st.stdoutTaken then []
          else okEvents ⟨d, "table", Writer.stdout, st.termWidth, sa⟩) ∧
      (tableStep env d sa st).1.termWidth = st.termWidth) ∧
    (∀ cause, (runPlan env (if st.stdoutTaken then []
        else [(⟨d, "table", Writer.stdout, st.termWidth, sa⟩ : RenderCall)]) st.world).2.2 =
          some cause →
      ∃ tail err, st.stdoutTaken = false ∧ (tableStep env d sa st).2 = some err ∧
        (tableStep env d sa st).1.trace = st.trace ++ tail ∧
        StepFailure ⟨d, "table", Writer.stdout, st.termWidth, sa⟩ cause tail err) := by
  unfold tableStep
  cases htk : st.stdoutTaken with
  | true =>
    simp only [if_true]
    constructor
    · intro _
      refine ⟨?_, ?_, ?_, ?_⟩ <;> first | trivial | rfl | simp [runPlan]
    · intro cause h
      simp [runPlan] at h
  | false =>
    simp only [Bool.false_eq_true, if_false]
    rcases hr : env.PrintResult st.world ⟨d, "table", Writer.stdout, st.termWidth, sa⟩
      with ⟨w1, r⟩
    have hp : performStep env ⟨d, "table", Writer.stdout, st.termWidth, sa⟩ st.world =
        (w1, r) := by
      simp only [performStep, hr]
    cases r with
    | none =>
      have hrun : runPlan env [(⟨d, "table", Writer.stdout, st.termWidth, sa⟩ : RenderCall)]
          st.world = (w1, 1, none) := by
        simp [runPlan, hp]
      rw [hrun]
      constructor
      · intro _
        refine ⟨?_, ?_, ?_, ?_⟩ <;> trivial
      · intro cause h
        cases h
    | some c =>
      have hrun : runPlan env [(⟨d, "table", Writer.stdout, st.termWidth, sa⟩ : RenderCall)]
          st.world = (w1, 0, some c) := by
        simp [runPlan, hp]
      rw [hrun]
      constructor
      · intro h
        cases h
      · intro cause h
        cases h
        refine ⟨_, _, trivial, rfl, rfl, Or.inr ?_⟩
        simp [openEvents]

theorem annotationStep_performs {σ : Type} (env : Env σ) (d : VulnerabilityResults)
    (sa gh : Bool) (st : FanState σ) :
    ((runPlan env (if gh then
          [(⟨d, "gh-annotations", Writer.stderr, st.termWidth, sa⟩ : RenderCall)]
        else []) st.world).2.2 = none →
      (annotationStep env d sa gh st).2 = none) ∧
    (∀ cause, (runPlan env (if gh then
          [(⟨d, "gh-annotations", Writer.stderr, st.termWidth, sa⟩ : RenderCall)]
        else []) st.world).2.2 = some cause →
      ∃ tail err, gh = true ∧ (annotationStep env d sa gh st).2 = some err ∧
        (annotationStep env d sa gh st).1.trace = st.trace ++ tail ∧
        StepFailure ⟨d, "gh-annotations", Writer.stderr, st.termWidth, sa⟩ cause tail err) := by
  unfold annotationStep
  cases gh with
  | false =>
    simp only [Bool.false_eq_true, if_false]
    constructor
    · intro _
      trivial
    · intro cause h
      simp [runPlan] at h
  | true =>
    simp only [if_true]
    rcases hr : env.PrintResult st.world
      ⟨d, "gh-annotations", Writer.stderr, st.termWidth, sa⟩ with ⟨w1, r⟩
    have hp : performStep env ⟨d, "gh-annotations", Writer.stderr, st.termWidth, sa⟩
        st.world = (w1, r) := by
      simp only [performStep, hr]
    cases r with
    | none =>
      have hrun : runPlan env
          [(⟨d, "gh-annotations", Writer.stderr, st.termWidth, sa⟩ : RenderCall)]
          st.world = (w1, 1, none) := by
        simp [runPlan, hp]
      rw [hrun]
      constructor
      · intro _
        trivial
      · intro cause h
        cases h
    | some c =>
      have hrun : runPlan env
          [(⟨d, "gh-annotations", Writer.stderr, st.termWidth, sa⟩ : RenderCall)]
          st.world = (w1, 0, some c) := by
        simp [runPlan, hp]
      rw [hrun]
      constructor
      · intro h
        cases h
      · intro cause h
        cases h
        refine ⟨_, _, trivial, rfl, rfl, Or.inr ?_⟩
        simp [openEvents]

theorem runPlan_single_fail {σ : Type} (env : Env σ) (call : RenderCall) (w : σ)
    (cause : GoError) (h : (runPlan env [call] w).2.2 = some cause) :
    (runPlan env [call] w).2.1 = 0 := by
  rcases hp : performStep env call w with ⟨w1, r⟩
  cases r with
  | some c => simp [runPlan, hp]
  | none => simp [runPlan, hp] at h

theorem fanOut_performs {σ : Type} (env : Env σ) (flags : Flags) (tw : Int) (w : σ)
    (d : VulnerabilityResults) :
    ((runPlan env (renderPlan flags tw d) w).2.2 = none →
      (fanOut env flags tw w d).2 = none) ∧
    (∀ cause, (runPlan env (renderPlan flags tw d) w).2.2 = some cause →
      ∃ done call rest tail err,
        renderPlan flags tw d = done ++ call :: rest ∧
        done.length = (runPlan env (renderPlan flags tw d) w).2.1 ∧
        (fanOut env flags tw w d).2 = some err ∧
        (fanOut env flags tw w d).1.trace = done.flatMap okEvents ++ tail ∧
        StepFailure call cause tail err) := by
  obtain ⟨A, hAdef⟩ : ∃ A, A = flags.output.map (directiveCall d flags.allVulns) := ⟨_, rfl⟩
  obtain ⟨B, hBdef⟩ : ∃ B : List RenderCall, B =
      (if flags.output.any takesStdStream then []
        else [⟨d, "table", Writer.stdout, trailingWidth flags tw, flags.allVulns⟩]) := ⟨_, rfl⟩
  obtain ⟨C, hCdef⟩ : ∃ C : List RenderCall, C =
      (if flags.ghAnnotations then
        [⟨d, "gh-annotations", Writer.stderr, trailingWidth flags tw, flags.allVulns⟩]
       else []) := ⟨_, rfl⟩
  have hplan : renderPlan flags tw d = (A ++ B) ++ C := by
    rw [hAdef, hBdef, hCdef]; rfl
  rw [hplan]
  have hL := directiveLoop_performs env d flags.allVulns flags.output ⟨w, [], false, tw⟩
  rw [← hAdef] at hL
  obtain ⟨lok, lfail⟩ := hL
  simp only [] at lok lfail
  cases hA : (runPlan env A w).2.2 with
  | some c =>
    obtain ⟨done, call, rest, tail, err, hm, hlen, l2, ltr, hf⟩ := lfail c hA
    have h1 := runPlan_append_of_fail env A B w c hA
    have hAB : (runPlan env (A ++ B) w).2.2 = some c := by rw [h1]; exact hA
    have h2 := runPlan_append_of_fail env (A ++ B) C w c hAB
    have hP : (runPlan env (A ++ B ++ C) w).2 = (runPlan env A w).2 := by rw [h2, h1]
    have hloop : directiveLoop env d flags.allVulns flags.output ⟨w, [], false, tw⟩ =
        ((directiveLoop env d flags.allVulns flags.output ⟨w, [], false, tw⟩).1, some err) := by
      rw [← l2]
    have hfan : fanOut env flags tw w d =
        ((directiveLoop env d flags.allVulns flags.output ⟨w, [], false, tw⟩).1, some err) := by
      rw [fanOut, hloop]
    rw [hP, hA, hfan]
    constructor
    · intro h
      cases h
    · intro cause h
      cases h
      refine ⟨done, call, rest ++ (B ++ C), tail, err, ?_, hlen, rfl, ?_, hf⟩
      · rw [hm]; simp [List.append_assoc]
      · simp only []
        rw [ltr]
        simp
  | none =>
    obtain ⟨l2, lw⟩ := lok hA
    have hloop : directiveLoop env d flags.allVulns flags.output ⟨w, [], false, tw⟩ =
        ((directiveLoop env d flags.allVulns flags.output ⟨w, [], false, tw⟩).1, none) := by
      rw [← l2]
    obtain ⟨ltr, ltk, ltw⟩ :
        (directiveLoop env d flags.allVulns flags.output ⟨w, [], false, tw⟩).1.trace =
          A.flatMap okEvents ∧
        (directiveLoop env d flags.allVulns flags.output ⟨w, [], false, tw⟩).1.stdoutTaken =
          flags.output.any takesStdStream ∧
        (directiveLoop env d flags.allVulns flags.output ⟨w, [], false, tw⟩).1.termWidth =
          trailingWidth flags tw := by
      rcases directiveLoop_spec env d flags.allVulns flags.output ⟨w, [], false, tw⟩ with
        ⟨_, a, b, c⟩ | ⟨_, _, _, _, _, err, _, l2b, _, _⟩
      · refine ⟨?_, ?_, ?_⟩
        · rw [a, hAdef]; simp
        · rw [b]; simp
        · rw [c]; rfl
      · rw [l2] at l2b; cases l2b
    generalize (directiveLoop env d flags.allVulns flags.output ⟨w, [], false, tw⟩).1 = st1
      at hloop lw ltr ltk ltw
    have hlenA := runPlan_length_of_ok env A w hA
    obtain ⟨hAB1, hAB2, hAB3⟩ := runPlan_append_of_ok env A B w hA
    obtain ⟨tok, tfail⟩ := tableStep_performs env d flags.allVulns st1
    rw [ltk, ltw, lw, ← hBdef] at tok tfail
    cases hB : (runPlan env B (runPlan env A w).1).2.2 with
    | some c =>
      obtain ⟨tail, err, htk, t2, ttr, hf⟩ := tfail c hB
      have hBeq : B = [⟨d, "table", Writer.stdout, trailingWidth flags tw, flags.allVulns⟩] := by
        rw [hBdef, htk]; rfl
      have hAB : (runPlan env (A ++ B) w).2.2 = some c := by rw [hAB3]; exact hB
      have h2 := runPlan_append_of_fail env (A ++ B) C w c hAB
      have hcount : (runPlan env (A ++ B) w).2.1 = A.length := by
        rw [hAB2]
        have := runPlan_single_fail env _ (runPlan env A w).1 c (by rw [← hBeq]; exact hB)
        rw [← hBeq] at this
        rw [this]; rfl
      have htab : tableStep env d flags.allVulns st1 =
          ((tableStep env d flags.allVulns st1).1, some err) := by rw [← t2]
      have hfan : fanOut env flags tw w d =
          ((tableStep env d flags.allVulns st1).1, some err) := by
        rw [fanOut, hloop]; simp only []; rw [htab]
      rw [h2, hAB, hcount, hfan]
      constructor
      · intro h
        cases h
      · intro cause h
        cases h
        refine ⟨A, _, C, tail, err, ?_, rfl, rfl, ?_, hf⟩
        · rw [hBeq]; simp
        · simp only []
          rw [ttr, ltr]
    | none =>
      obtain ⟨t2, tw2, ttr, ttw⟩ := tok hB
      have htab : tableStep env d flags.allVulns st1 =
          ((tableStep env d flags.allVulns st1).1, none) := by rw [← t2]
      have hABok : (runPlan env (A ++ B) w).2.2 = none := by rw [hAB3]; exact hB
      have hlenAB := runPlan_length_of_ok env (A ++ B) w hABok
      obtain ⟨hC1, hC2, hC3⟩ := runPlan_append_of_ok env (A ++ B) C w hABok
      have htr2 : (tableStep env d flags.allVulns st1).1.trace = (A ++ B).flatMap okEvents := by
        rw [ttr, ltr, hBdef]
        cases flags.output.any takesStdStream <;> simp
      generalize (tableStep env d flags.allVulns st1).1 = st2 at htab tw2 ttr ttw htr2
      have hfan : fanOut env flags tw w d =
          annotationStep env d flags.allVulns flags.ghAnnotations st2 := by
        rw [fanOut, hloop]; simp only []; rw [htab]
      obtain ⟨aok, afail⟩ := annotationStep_performs env d flags.allVulns flags.ghAnnotations st2
      rw [ttw, tw2, ← hAB1, ← hCdef] at aok afail
      rw [hfan, hC3, hC2]
      constructor
      · exact aok
      · intro cause h
        obtain ⟨tail, err, hgh, a2, atr, hf⟩ := afail cause h
        have hCeq : C =
            [⟨d, "gh-annotations", Writer.stderr, trailingWidth flags tw, flags.allVulns⟩] := by
          rw [hCdef, hgh]; rfl
        have hzero := runPlan_single_fail env _ (runPlan env (A ++ B) w).1 cause
          (by rw [← hCeq]; exact h)
        rw [← hCeq] at hzero
        refine ⟨A ++ B, _, [], tail, err, ?_, ?_, a2, ?_, hf⟩
        · rw [hCeq]
        · rw [hzero]; rfl
        · rw [atr, htr2]

end OsvReporter

namespace OsvReporter

/-- C3 (diff strategy selection): for all snapshots, when the occurrence probe
is empty the selected diff is the empty result whatever the full diff would
return, and the gate passes on it; otherwise it is the full diff. In the
`Action` every render call carries the selected diff, the gate is evaluated on
it, and an empty probe followed by a successful fan-out returns no error. -/
theorem diff_selection {σ : Type} (env : Env σ) (oldVulns newVulns : VulnerabilityResults) :
    (env.DiffVulnerabilityResultsByOccurrences oldVulns newVulns = [] →
      selectDiff env oldVulns newVulns = emptyResults ∧
      (selectDiff env oldVulns newVulns).Results.length = 0 ∧
      (∀ full, selectDiff (withFullDiff env full) oldVulns newVulns = emptyResults) ∧
      (∀ flags, gate flags (selectDiff env oldVulns newVulns) = none)) ∧
    (env.DiffVulnerabilityResultsByOccurrences oldVulns newVulns ≠ [] →
      selectDiff env oldVulns newVulns = env.DiffVulnerabilityResults oldVulns newVulns) ∧
    (∀ (flags : Flags) (w : σ),
      (loadSnapshots env flags w).oldVulns = oldVulns →
      (loadSnapshots env flags w).newVulns = newVulns →
      (∀ c ∈ attemptedCalls (Action env flags w).trace,
        c.diff = selectDiff env oldVulns newVulns) ∧
      ((actionFanOut env flags w).2 = none →
        (Action env flags w).err = gate flags (selectDiff env oldVulns newVulns)) ∧
      (env.DiffVulnerabilityResultsByOccurrences oldVulns newVulns = [] →
        (actionFanOut env flags w).2 = none → (Action env flags w).err = none)) := by
  have hempty : env.DiffVulnerabilityResultsByOccurrences oldVulns newVulns = [] →
      selectDiff env oldVulns newVulns = emptyResults := by
    intro h
    simp [selectDiff, h]
  have hgate : ∀ flags, gate flags emptyResults = none := by
    intro flags
    rw [gate_eq_none_iff]
    rintro ⟨_, t, ht, _⟩
    cases ht
  refine ⟨?_, ?_, ?_⟩
  · intro h
    refine ⟨hempty h, ?_, ?_, ?_⟩
    · rw [hempty h]; rfl
    · intro full
      simp [selectDiff, withFullDiff, h]
    · intro flags
      rw [hempty h]
      exact hgate flags
  · intro h
    have hlen : (env.DiffVulnerabilityResultsByOccurrences oldVulns newVulns).length ≠ 0 := by
      intro h0
      exact h (List.length_eq_zero.1 h0)
    simp [selectDiff, hlen]
  · intro flags w hold hnew
    have hd : actionDiff env flags w = selectDiff env oldVulns newVulns := by
      unfold actionDiff
      rw [hold, hnew]
    refine ⟨?_, ?_, ?_⟩
    · intro c hc
      rw [Action_attemptedCalls] at hc
      rw [← hd]
      exact (renderPlan_diff _ _ _ c (actionFanOut_attempted_mem env flags w c hc)).1
    · intro hok
      rw [Action_err, hok, hd]
    · intro h hok
      rw [Action_err, hok, hd, hempty h]
      exact hgate flags

theorem exitCode_eq_one_iff (logger : Logger) (e : GoError) :
    exitCode logger (some e) = 1 ↔
      (logger.hasErroredBecauseInvalidConfig = false ∧
        e.Is GoError.ErrVulnerabilitiesFound = true) := by
  unfold exitCode Logger.Errorf
  simp only []
  split_ifs <;> simp_all

/-- C5, as the code has it (fan-out failure): if, performing the render plan
of the run step by step in the environment, the first failure (a file sink
that cannot be created, or a render that returns an error) occurs at step `k`
with `cause`, then exactly the first `k` renders of the plan have been
performed, the sink events end with the failing step on the `k`-th call so no
later directive, table render or annotation render is attempted, the `Action`
returns an error wrapping `cause` instead of the gate verdict, and `run` never
exits with 0; it exits with the gate code 1 exactly when no
invalid-configuration error was logged and `cause` itself matches
`ErrVulnerabilitiesFound`. -/
theorem fanOut_failure {σ : Type} (env : Env σ) (flags : Flags) (w : σ) (k : Nat)
    (cause : GoError)
    (hfail : (runPlan env
        (renderPlan flags (detectTermWidth env.termGetSize) (actionDiff env flags w))
        (loadSnapshots env flags w).world).2 = (k, some cause)) :
    ∃ call tail err,
      (renderPlan flags (detectTermWidth env.termGetSize) (actionDiff env flags w))[k]? =
        some call ∧
      StepFailure call cause tail err ∧
      sinkEvents (Action env flags w).trace =
        ((renderPlan flags (detectTermWidth env.termGetSize)
          (actionDiff env flags w)).take k).flatMap okEvents ++ tail ∧
      renderedCalls (Action env flags w).trace =
        (renderPlan flags (detectTermWidth env.termGetSize) (actionDiff env flags w)).take k ∧
      (attemptedCalls (Action env flags w).trace =
          (renderPlan flags (detectTermWidth env.termGetSize)
            (actionDiff env flags w)).take k ∨
        attemptedCalls (Action env flags w).trace =
          (renderPlan flags (detectTermWidth env.termGetSize)
            (actionDiff env flags w)).take (k + 1)) ∧
      (Action env flags w).err = some err ∧
      (∃ msg, err = GoError.wrap msg cause) ∧
      (Action env flags w).err ≠ gate flags (actionDiff env flags w) ∧
      run env flags w ≠ 0 ∧
      (run env flags w = 1 ↔
        ((env.logger (Action env flags w).world).hasErroredBecauseInvalidConfig = false ∧
          cause.Is GoError.ErrVulnerabilitiesFound = true)) := by
  have hk : (runPlan env
      (renderPlan flags (detectTermWidth env.termGetSize) (actionDiff env flags w))
      (loadSnapshots env flags w).world).2.1 = k := by rw [hfail]
  have hc : (runPlan env
      (renderPlan flags (detectTermWidth env.termGetSize) (actionDiff env flags w))
      (loadSnapshots env flags w).world).2.2 = some cause := by rw [hfail]
  obtain ⟨done, call, rest, tail, err, hp, hlen, herr, htr, hf⟩ :=
    (fanOut_performs env flags (detectTermWidth env.termGetSize)
      (loadSnapshots env flags w).world (actionDiff env flags w)).2 cause hc
  have herr2 : (actionFanOut env flags w).2 = some err := herr
  have htr2 : (actionFanOut env flags w).1.trace = done.flatMap okEvents ++ tail := htr
  rw [hk] at hlen
  subst hlen
  have haerr : (Action env flags w).err = some err := by
    rw [Action_err, herr2]
  obtain ⟨msg, hmsg⟩ := hf.wraps
  rw [hp]
  refine ⟨call, tail, err, ?_, hf, ?_, ?_, ?_, haerr, ⟨msg, hmsg⟩, ?_, ?_, ?_⟩
  · rw [List.getElem?_append_right (le_refl _)]
    simp
  · rw [Action_sinkEvents, htr2, sinkEvents_append, sinkEvents_plan, hf.sink]
    simp
  · rw [Action_renderedCalls, htr2, renderedCalls_append, renderedCalls_plan, hf.rendered]
    simp
  · rw [Action_attemptedCalls, htr2, attemptedCalls_append, attemptedCalls_plan]
    rcases hf.attempted with ht | ht
    · left; rw [ht]; simp
    · right; rw [ht]; simp [List.take_append_eq_append_take]
  · rw [haerr, hmsg]
    rcases gate_cases flags (actionDiff env flags w) with hg | hg <;> rw [hg] <;> simp
  · unfold run
    rw [haerr]
    exact exitCode_ne_zero_of_err _ _
  · unfold run
    rw [haerr, exitCode_eq_one_iff, hmsg, wrap_Is_sentinel]

/-- C6, as the code has it (one render per directive, then the table unless a
directive names a standard stream): with the annotation toggle off and a
fan-out without failure, the successful render calls are the directive calls
in order, the i-th with the i-th directive's format and resolved sink,
followed by one `table` render to stdout exactly when no directive's path is
`#stdout` or `#stderr`; for the empty directive list that is the single
`table` render to stdout. -/
theorem renders_per_directive {σ : Type} (env : Env σ) (flags : Flags) (tw : Int) (w : σ)
    (d : VulnerabilityResults) (hgh : flags.ghAnnotations = false)
    (hok : (fanOut env flags tw w d).2 = none) :
    renderedCalls (fanOut env flags tw w d).1.trace =
      flags.output.map (directiveCall d flags.allVulns) ++
        (if flags.output.any takesStdStream then []
         else [⟨d, "table", Writer.stdout, trailingWidth flags tw, flags.allVulns⟩]) ∧
    (∀ (i : Nat) (h : i < flags.output.length),
      (renderedCalls (fanOut env flags tw w d).1.trace)[i]? =
        some ⟨d, (parseDirective (flags.output.get ⟨i, h⟩)).1,
          resolveWriter (parseDirective (flags.output.get ⟨i, h⟩)).2, 0, flags.allVulns⟩) ∧
    (renderedCalls (fanOut env flags tw w d).1.trace).length =
      flags.output.length + (if flags.output.any takesStdStream then 0 else 1) ∧
    (flags.output = [] →
      renderedCalls (fanOut env flags tw w d).1.trace =
        [⟨d, "table", Writer.stdout, tw, flags.allVulns⟩]) := by
  have hcalls : renderedCalls (fanOut env flags tw w d).1.trace =
      flags.output.map (directiveCall d flags.allVulns) ++
        (if flags.output.any takesStdStream then []
         else [⟨d, "table", Writer.stdout, trailingWidth flags tw, flags.allVulns⟩]) := by
    rcases fanOut_spec env flags tw w d with ⟨_, htr⟩ | ⟨_, _, _, _, _, err, _, herr, _, _⟩
    · rw [htr, renderedCalls_plan]
      unfold renderPlan
      rw [hgh]
      simp
    · rw [hok] at herr; cases herr
  refine ⟨hcalls, ?_, ?_, ?_⟩
  · intro i h
    rw [hcalls, List.getElem?_append_left (by simpa using h)]
    simp [directiveCall, List.getElem?_map, List.getElem?_eq_getElem h]
  · rw [hcalls]
    cases flags.output.any takesStdStream <;> simp
  · intro hnil
    rw [hcalls, hnil]
    simp [trailingWidth, hnil]

end OsvReporter

namespace OsvReporter

theorem actionFanOut_loads {σ : Type} (env : Env σ) (flags : Flags) (w : σ) :
    loadAttempts (actionFanOut env flags w).1.trace = [] := by
  rcases actionFanOut_spec env flags w with ⟨_, htr⟩ | ⟨done, call, rest, cause, tail, err, _, _, htr, hf⟩
  · rw [htr, loadAttempts_plan]
  · rw [htr, loadAttempts_append, loadAttempts_plan, hf.loads]
    rfl

/-- C7 (snapshot load failure degrades to empty): the `Action` under `env`
returns the same error, leaves the same world, performs the same sink events
and uses the same diff as under the environment whose loader never fails and
returns the empty snapshot wherever the loader of `env` fails. A failed load
of either snapshot leaves the empty snapshot in its place, and an empty
`--old` path loads only the current snapshot, with the empty baseline. -/
theorem load_failure_degrades {σ : Type} (env : Env σ) (flags : Flags) (w : σ) :
    ((Action env flags w).err =
        (Action (withLoader env (succeedingLoader env)) flags w).err ∧
      (Action env flags w).world =
        (Action (withLoader env (succeedingLoader env)) flags w).world ∧
      sinkEvents (Action env flags w).trace =
        sinkEvents (Action (withLoader env (succeedingLoader env)) flags w).trace ∧
      actionDiff env flags w = actionDiff (withLoader env (succeedingLoader env)) flags w) ∧
    (∀ (w1 : σ) (path : String),
      ((succeedingLoader env w1 path).1 = (env.LoadVulnResults w1 path).1) ∧
      (∀ e, (env.LoadVulnResults w1 path).2 = Except.error e →
        (succeedingLoader env w1 path).2 = Except.ok emptyResults) ∧
      (∀ v, (env.LoadVulnResults w1 path).2 = Except.ok v →
        (succeedingLoader env w1 path).2 = Except.ok v)) ∧
    (∀ e, flags.old ≠ "" → (env.LoadVulnResults w flags.old).2 = Except.error e →
      (loadSnapshots env flags w).oldVulns = emptyResults) ∧
    (∀ e, (env.LoadVulnResults (loadOld env flags.old w).1 flags.new).2 = Except.error e →
      (loadSnapshots env flags w).newVulns = emptyResults) ∧
    (flags.old = "" →
      (loadSnapshots env flags w).oldVulns = emptyResults ∧
      loadAttempts (Action env flags w).trace = [flags.new]) := by
  refine ⟨⟨?_, ?_, ?_, ?_⟩, ?_, ?_, ?_, ?_⟩
  · rw [Action_err, Action_err, actionFanOut_succeeding, actionDiff_succeeding]
  · rw [Action_world, Action_world, actionFanOut_succeeding]
  · rw [Action_sinkEvents, Action_sinkEvents, actionFanOut_succeeding]
  · rw [actionDiff_succeeding]
  · intro w1 path
    unfold succeedingLoader
    rcases env.LoadVulnResults w1 path with ⟨w2, r⟩
    cases r with
    | ok v =>
      refine ⟨rfl, ?_, ?_⟩
      · intro e h; cases h
      · intro v0 h; exact h
    | error e0 =>
      refine ⟨rfl, ?_, ?_⟩
      · intro e _; rfl
      · intro v0 h; cases h
  · intro e hne hfail
    unfold loadSnapshots loadOld
    simp only [ne_eq, hne, not_false_eq_true, if_true]
    rcases hl : env.LoadVulnResults w flags.old with ⟨w1, r⟩
    rw [hl] at hfail
    simp only [] at hfail
    subst hfail
    rfl
  · intro e hfail
    unfold loadSnapshots loadNew
    simp only []
    rcases hl : env.LoadVulnResults (loadOld env flags.old w).1 flags.new with ⟨w1, r⟩
    rw [hl] at hfail
    simp only [] at hfail
    subst hfail
    rfl
  · intro hempty
    have hold : loadOld env flags.old w = (w, [], emptyResults) := by
      unfold loadOld
      simp [hempty]
    refine ⟨?_, ?_⟩
    · unfold loadSnapshots
      simp only []
      rw [hold]
    · rw [Action_trace, loadAttempts_append, actionFanOut_loads]
      unfold loadSnapshots
      simp only []
      rw [hold]
      unfold loadNew
      simp only []
      rcases env.LoadVulnResults w flags.new with ⟨w1, r⟩
      cases r <;> simp [loadAttempts]

/-- C8 (gate independence from rendering options): two runs, in any two
environments and worlds and with any flags, that load the same two snapshots,
use the same two diff functions and have the same fail-on-vuln setting, and in
both of which the fan-out succeeds, return the same error; so one returns
`ErrVulnerabilitiesFound` exactly when the other does. -/
theorem gate_independent_of_rendering {σ τ : Type} (env1 : Env σ) (env2 : Env τ)
    (flags1 flags2 : Flags) (w1 : σ) (w2 : τ)
    (hold : (loadSnapshots env1 flags1 w1).oldVulns = (loadSnapshots env2 flags2 w2).oldVulns)
    (hnew : (loadSnapshots env1 flags1 w1).newVulns = (loadSnapshots env2 flags2 w2).newVulns)
    (hocc : env1.DiffVulnerabilityResultsByOccurrences =
      env2.DiffVulnerabilityResultsByOccurrences)
    (hfull : env1.DiffVulnerabilityResults = env2.DiffVulnerabilityResults)
    (hflag : failOnVulnOf flags1 = failOnVulnOf flags2)
    (hok1 : (actionFanOut env1 flags1 w1).2 = none)
    (hok2 : (actionFanOut env2 flags2 w2).2 = none) :
    (Action env1 flags1 w1).err = (Action env2 flags2 w2).err ∧
    ((Action env1 flags1 w1).err = some GoError.ErrVulnerabilitiesFound ↔
      (Action env2 flags2 w2).err = some GoError.ErrVulnerabilitiesFound) ∧
    (Action env1 flags1 w1).err = gate flags1 (actionDiff env1 flags1 w1) := by
  have hd : actionDiff env1 flags1 w1 = actionDiff env2 flags2 w2 := by
    unfold actionDiff selectDiff
    rw [hold, hnew, hocc, hfull]
  have h1 : (Action env1 flags1 w1).err = gate flags1 (actionDiff env1 flags1 w1) := by
    rw [Action_err, hok1]
  have h2 : (Action env2 flags2 w2).err = gate flags2 (actionDiff env2 flags2 w2) := by
    rw [Action_err, hok2]
  have heq : (Action env1 flags1 w1).err = (Action env2 flags2 w2).err := by
    rw [h1, h2, hd]
    exact gate_congr flags1 flags2 _ hflag
  exact ⟨heq, by rw [heq], h1⟩

theorem any_takesStdStream_iff (dirs : List String) :
    dirs.any takesStdStream = true ↔
      ∃ dir ∈ dirs, (parseDirective dir).2 = "#stdout" ∨ (parseDirective dir).2 = "#stderr" := by
  simp [List.any_eq_true, takesStdStream]

/-- C10 (exact render sequence): when the fan-out of the `Action` meets no
failure, the calls of the renderer are, in order: one per directive with its
format, its resolved sink and width 0; then `table` to stdout exactly when no
directive's path is `#stdout` or `#stderr`; then `gh-annotations` to stderr
exactly when the flag is set; the last two with the detected terminal width
when no directive was supplied and width 0 otherwise; every call on the diff
of the run and with the show-all flag. -/
theorem exact_render_sequence {σ : Type} (env : Env σ) (flags : Flags) (w : σ)
    (hok : (actionFanOut env flags w).2 = none) :
    attemptedCalls (Action env flags w).trace =
      flags.output.map (fun dir =>
          (⟨actionDiff env flags w, (parseDirective dir).1,
            resolveWriter (parseDirective dir).2, 0, flags.allVulns⟩ : RenderCall)) ++
        (if ∃ dir ∈ flags.output,
            (parseDirective dir).2 = "#stdout" ∨ (parseDirective dir).2 = "#stderr" then []
         else [⟨actionDiff env flags w, "table", Writer.stdout,
            if flags.output = [] then detectTermWidth env.termGetSize else 0,
            flags.allVulns⟩]) ++
        (if flags.ghAnnotations = true then
          [⟨actionDiff env flags w, "gh-annotations", Writer.stderr,
            if flags.output = [] then detectTermWidth env.termGetSize else 0,
            flags.allVulns⟩]
         else []) ∧
    renderedCalls (Action env flags w).trace = attemptedCalls (Action env flags w).trace ∧
    attemptedCalls (Action env flags w).trace =
      renderPlan flags (detectTermWidth env.termGetSize) (actionDiff env flags w) := by
  have hplan : attemptedCalls (Action env flags w).trace =
      renderPlan flags (detectTermWidth env.termGetSize) (actionDiff env flags w) ∧
      renderedCalls (Action env flags w).trace =
      renderPlan flags (detectTermWidth env.termGetSize) (actionDiff env flags w) := by
    rcases actionFanOut_spec env flags w with ⟨_, htr⟩ | ⟨_, _, _, _, _, err, _, herr, _, _⟩
    · rw [Action_attemptedCalls, Action_renderedCalls, htr, attemptedCalls_plan,
        renderedCalls_plan]
      exact ⟨rfl, rfl⟩
    · rw [hok] at herr; cases herr
  refine ⟨?_, ?_, hplan.1⟩
  · rw [hplan.1]
    unfold renderPlan trailingWidth
    by_cases hany : flags.output.any takesStdStream = true
    · have hex := (any_takesStdStream_iff flags.output).1 hany
      rw [if_pos hany, if_pos hex]
      rfl
    · have hex : ¬ ∃ dir ∈ flags.output,
          (parseDirective dir).2 = "#stdout" ∨ (parseDirective dir).2 = "#stderr" :=
        fun h => hany ((any_takesStdStream_iff flags.output).2 h)
      rw [if_neg hany, if_neg hex]
      rfl
  · rw [hplan.1, hplan.2]

end OsvReporter

namespace Gitrepo

open OsvReporter (GoError)

/-! ## The extractor's error contract -/

theorem Extract_disabled (git : GitEnv) (e : Extractor) (input : ScanInput)
    (h : e.Disabled = true) : Extract git e input = (⟨[]⟩, none) := by
  simp [Extract, h]

theorem Extract_error_iff (git : GitEnv) (e : Extractor) (input : ScanInput) :
    (Extract git e input).2 ≠ none ↔
      e.Disabled = false ∧
        ((∃ err, git.PlainOpen (git.pathJoin input.Root (git.filepathDir input.Path)) =
            Except.error err) ∨
          (∃ repo err, git.PlainOpen (git.pathJoin input.Root (git.filepathDir input.Path)) =
            Except.ok repo ∧ getSubmodules repo = Except.error err)) := by
  unfold Extract
  cases hd : e.Disabled with
  | true => simp
  | false =>
    simp only [Bool.false_eq_true, if_false, true_and]
    cases ho : git.PlainOpen (git.pathJoin input.Root (git.filepathDir input.Path)) with
    | error err => simp
    | ok repo =>
      simp only []
      cases hs : getSubmodules repo with
      | error err => simp [hs]
      | ok subs => simp [hs]

/-- C9 at the failing input: with the extractor enabled and `git.PlainOpen`
succeeding, a repository whose submodule list cannot be read makes `Extract`
return the entries gathered so far together with a non-nil error. -/
theorem extract_returns_submodule_error :
    brokenModulesEnv.pathJoin "/src" (brokenModulesEnv.filepathDir "repo/.git") = "/src/repo" ∧
    (∃ repo, brokenModulesEnv.PlainOpen "/src/repo" = Except.ok repo) ∧
    Extract brokenModulesEnv ⟨true, false⟩ ⟨"/src", "repo/.git"⟩ =
      (⟨[⟨"0123abc", ["repo/.git"]⟩]⟩, some (GoError.other "malformed .gitmodules")) :=
  ⟨by decide, ⟨brokenModulesRepo, rfl⟩, by decide⟩

end Gitrepo

namespace OsvReporter

/-! ## Concrete runs -/

/-- Witness of C1: scenario 2, the fan-out succeeds and the gate fails on the
reachable `VULN-2`. -/
theorem gate_verdict_witness :
    (fanOut (sampleEnv filesNewCalled) baseFlags 120 [] newCalledDiff).2 = none ∧
    (reportAndGate (sampleEnv filesNewCalled) baseFlags 120 [] newCalledDiff).err =
      some GoError.ErrVulnerabilitiesFound :=
  ⟨by decide,
    (gate_verdict (sampleEnv filesNewCalled) baseFlags 120 [] newCalledDiff (by decide)).1.2
      ⟨Or.inl rfl,
        ⟨⟨"pkg/lock.json", ⟨"foo", "npm", "1.0"⟩, ⟨["VULN-2"], true⟩⟩, by decide, rfl⟩⟩⟩

/-- Witness of C3: scenario 3, the finding moved from `a/lock.json` to
`b/lock.json`; the probe is empty, the full diff is not, and the selected diff
is empty. -/
theorem diff_selection_witness :
    occurrenceDiff (oneFinding "a/lock.json" "VULN-3" true)
        (oneFinding "b/lock.json" "VULN-3" true) = [] ∧
    fullDiff (oneFinding "a/lock.json" "VULN-3" true)
        (oneFinding "b/lock.json" "VULN-3" true) = oneFinding "b/lock.json" "VULN-3" true ∧
    selectDiff (sampleEnv filesMoved) (oneFinding "a/lock.json" "VULN-3" true)
        (oneFinding "b/lock.json" "VULN-3" true) = emptyResults ∧
    run (sampleEnv filesMoved) baseFlags [] = 0 :=
  ⟨by decide, by decide,
    ((diff_selection (sampleEnv filesMoved) (oneFinding "a/lock.json" "VULN-3" true)
      (oneFinding "b/lock.json" "VULN-3" true)).1 (by decide)).1,
    by decide⟩

/-- Witness of C5: the second directive names a file that cannot be created,
so the plan fails at step 1; only the first render was performed, the third
directive, the table and the annotations were not attempted, and `run` exits
with 127 although the gate would have failed. -/
theorem fanOut_failure_witness :
    (runPlan (sampleEnv filesNewCalled)
        (renderPlan flagsUnwritable (detectTermWidth (sampleEnv filesNewCalled).termGetSize)
          (actionDiff (sampleEnv filesNewCalled) flagsUnwritable []))
        (loadSnapshots (sampleEnv filesNewCalled) flagsUnwritable []).world).2 =
      (1, some (GoError.other "open: permission denied")) ∧
    (∃ call tail err,
      (renderPlan flagsUnwritable (detectTermWidth (sampleEnv filesNewCalled).termGetSize)
          (actionDiff (sampleEnv filesNewCalled) flagsUnwritable []))[1]? = some call ∧
      StepFailure call (GoError.other "open: permission denied") tail err ∧
      sinkEvents (Action (sampleEnv filesNewCalled) flagsUnwritable []).trace =
        ((renderPlan flagsUnwritable (detectTermWidth (sampleEnv filesNewCalled).termGetSize)
          (actionDiff (sampleEnv filesNewCalled) flagsUnwritable [])).take 1).flatMap okEvents ++
          tail ∧
      renderedCalls (Action (sampleEnv filesNewCalled) flagsUnwritable []).trace =
        (renderPlan flagsUnwritable (detectTermWidth (sampleEnv filesNewCalled).termGetSize)
          (actionDiff (sampleEnv filesNewCalled) flagsUnwritable [])).take 1 ∧
      (attemptedCalls (Action (sampleEnv filesNewCalled) flagsUnwritable []).trace =
          (renderPlan flagsUnwritable (detectTermWidth (sampleEnv filesNewCalled).termGetSize)
            (actionDiff (sampleEnv filesNewCalled) flagsUnwritable [])).take 1 ∨
        attemptedCalls (Action (sampleEnv filesNewCalled) flagsUnwritable []).trace =
          (renderPlan flagsUnwritable (detectTermWidth (sampleEnv filesNewCalled).termGetSize)
            (actionDiff (sampleEnv filesNewCalled) flagsUnwritable [])).take (1 + 1)) ∧
      (Action (sampleEnv filesNewCalled) flagsUnwritable []).err = some err ∧
      (∃ msg, err = GoError.wrap msg (GoError.other "open: permission denied")) ∧
      (Action (sampleEnv filesNewCalled) flagsUnwritable []).err ≠
        gate flagsUnwritable (actionDiff (sampleEnv filesNewCalled) flagsUnwritable []) ∧
      run (sampleEnv filesNewCalled) flagsUnwritable [] ≠ 0 ∧
      (run (sampleEnv filesNewCalled) flagsUnwritable [] = 1 ↔
        (((sampleEnv filesNewCalled).logger
            (Action (sampleEnv filesNewCalled) flagsUnwritable []).world
          ).hasErroredBecauseInvalidConfig = false ∧
          (GoError.other "open: permission denied").Is GoError.ErrVulnerabilitiesFound =
            true))) ∧
    renderedCalls (Action (sampleEnv filesNewCalled) flagsUnwritable []).trace =
      [⟨newCalledDiff, "markdown", Writer.stdout, 0, false⟩] ∧
    createAttempts (Action (sampleEnv filesNewCalled) flagsUnwritable []).trace =
      ["/ro/out.sarif"] ∧
    (Action (sampleEnv filesNewCalled) flagsUnwritable []).err =
      some (GoError.wrap "failed to create output file"
        (GoError.other "open: permission denied")) ∧
    gate flagsUnwritable (actionDiff (sampleEnv filesNewCalled) flagsUnwritable []) =
      some GoError.ErrVulnerabilitiesFound ∧
    run (sampleEnv filesNewCalled) flagsUnwritable [] = 127 :=
  ⟨by decide,
    fanOut_failure (sampleEnv filesNewCalled) flagsUnwritable [] 1
      (GoError.other "open: permission denied") (by decide),
    by decide, by decide, by decide, by decide, by decide⟩

/-- Counterexample to C5 as stated: stdout is a writer whose writes return the
error value `ErrVulnerabilitiesFound`, so the render of the table, the first
step of the plan, returns an error that matches the gate sentinel. The diff is
empty and the gate would pass, the `Action` returns the wrapped cause, and
`run` exits with the gate code 1. -/
theorem render_failure_exits_with_gate_code :
    (runPlan sentinelStdoutEnv
        (renderPlan baseFlags (detectTermWidth sentinelStdoutEnv.termGetSize)
          (actionDiff sentinelStdoutEnv baseFlags []))
        (loadSnapshots sentinelStdoutEnv baseFlags []).world).2 =
      (0, some GoError.ErrVulnerabilitiesFound) ∧
    actionDiff sentinelStdoutEnv baseFlags [] = emptyResults ∧
    gate baseFlags (actionDiff sentinelStdoutEnv baseFlags []) = none ∧
    (Action sentinelStdoutEnv baseFlags []).err =
      some (GoError.wrap "failed to write output" GoError.ErrVulnerabilitiesFound) ∧
    (sentinelStdoutEnv.logger (Action sentinelStdoutEnv baseFlags []).world
      ).hasErroredBecauseInvalidConfig = false ∧
    run sentinelStdoutEnv baseFlags [] = 1 := by
  decide

/-- Counterexample to C6 as stated: one directive to a file, annotations off,
every sink opens and every render succeeds, and the renderer is invoked twice:
once for the directive and once for the table to stdout. -/
theorem file_only_directive_renders_twice :
    flagsFileOnly.ghAnnotations = false ∧
    flagsFileOnly.output.length = 1 ∧
    (fanOut (sampleEnv filesNewCalled) flagsFileOnly 120 [] newCalledDiff).2 = none ∧
    renderedCalls (fanOut (sampleEnv filesNewCalled) flagsFileOnly 120 [] newCalledDiff).1.trace =
      [⟨newCalledDiff, "sarif", Writer.file "out.sarif", 0, false⟩,
       ⟨newCalledDiff, "table", Writer.stdout, 0, false⟩] ∧
    ¬ (renderedCalls
        (fanOut (sampleEnv filesNewCalled) flagsFileOnly 120 [] newCalledDiff).1.trace).length =
      flagsFileOnly.output.length := by
  decide

/-- Witness of the amended C6: a directive to `#stderr` alone is rendered once
and suppresses the table. -/
theorem renders_per_directive_witness :
    flagsStderrOnly.ghAnnotations = false ∧
    (fanOut (sampleEnv filesNewCalled) flagsStderrOnly 120 [] newCalledDiff).2 = none ∧
    renderedCalls
        (fanOut (sampleEnv filesNewCalled) flagsStderrOnly 120 [] newCalledDiff).1.trace =
      flagsStderrOnly.output.map (directiveCall newCalledDiff flagsStderrOnly.allVulns) ++
        (if flagsStderrOnly.output.any takesStdStream then []
         else [⟨newCalledDiff, "table", Writer.stdout, trailingWidth flagsStderrOnly 120,
                flagsStderrOnly.allVulns⟩]) ∧
    renderedCalls
        (fanOut (sampleEnv filesNewCalled) flagsStderrOnly 120 [] newCalledDiff).1.trace =
      [⟨newCalledDiff, "markdown", Writer.stderr, 0, false⟩] ∧
    renderedCalls (fanOut (sampleEnv filesNewCalled) baseFlags 120 [] newCalledDiff).1.trace =
      [⟨newCalledDiff, "table", Writer.stdout, 120, false⟩] :=
  ⟨rfl, by decide,
    (renders_per_directive (sampleEnv filesNewCalled) flagsStderrOnly 120 [] newCalledDiff rfl
      (by decide)).1,
    by decide, by decide⟩

/-- Witness of C7: scenario 5, the baseline `old.json` cannot be opened; the
run returns what the run with the never-failing loader returns, a warning is
logged, and the gate fails on the finding of the current snapshot. -/
theorem load_failure_degrades_witness :
    (Action (sampleEnv filesNewCalled) baseFlags []).err =
      (Action (withLoader (sampleEnv filesNewCalled)
        (succeedingLoader (sampleEnv filesNewCalled))) baseFlags []).err ∧
    (Action (sampleEnv filesNewCalled) baseFlags []).err =
      some GoError.ErrVulnerabilitiesFound ∧
    (Action (sampleEnv filesNewCalled) baseFlags []).trace =
      [Event.load "old.json" (some (GoError.other "open: no such file or directory")),
       Event.warnf "old.json", Event.load "new.json" none,
       Event.printResult ⟨newCalledDiff, "table", Writer.stdout, 120, false⟩ none] ∧
    (Action (sampleEnv filesEmptyOld) baseFlags []).err =
      (Action (sampleEnv filesNewCalled) baseFlags []).err ∧
    (Action (sampleEnv filesEmptyNew) baseFlags []).err = none ∧
    run (sampleEnv filesEmptyNew) baseFlags [] = 0 :=
  ⟨(load_failure_degrades (sampleEnv filesNewCalled) baseFlags []).1.1,
    by decide, by decide, by decide, by decide, by decide⟩

/-- Witness of C8: a run with default options against a missing baseline and a
run with two directives, annotations, the show-all filter, no terminal and an
empty baseline file return the same error, the gate failure. -/
theorem gate_independent_of_rendering_witness :
    (loadSnapshots (sampleEnv filesNewCalled) baseFlags []).oldVulns =
      (loadSnapshots pipedEnv flagsAnnotated ["stale.txt"]).oldVulns ∧
    (loadSnapshots (sampleEnv filesNewCalled) baseFlags []).newVulns =
      (loadSnapshots pipedEnv flagsAnnotated ["stale.txt"]).newVulns ∧
    failOnVulnOf baseFlags = failOnVulnOf flagsAnnotated ∧
    (actionFanOut (sampleEnv filesNewCalled) baseFlags []).2 = none ∧
    (actionFanOut pipedEnv flagsAnnotated ["stale.txt"]).2 = none ∧
    (Action (sampleEnv filesNewCalled) baseFlags []).err =
      (Action pipedEnv flagsAnnotated ["stale.txt"]).err ∧
    (Action pipedEnv flagsAnnotated ["stale.txt"]).err =
      some GoError.ErrVulnerabilitiesFound ∧
    attemptedCalls (Action (sampleEnv filesNewCalled) baseFlags []).trace ≠
      attemptedCalls (Action pipedEnv flagsAnnotated ["stale.txt"]).trace :=
  ⟨by decide, by decide, by decide, by decide, by decide,
    (gate_independent_of_rendering (sampleEnv filesNewCalled) pipedEnv baseFlags flagsAnnotated
      [] ["stale.txt"] (by decide) (by decide) rfl rfl (by decide) (by decide) (by decide)).1,
    by decide, by decide⟩

/-- Witness of C10: a file-only directive list still prints the table to
stdout, with width 0; a directive to `#stderr` alone suppresses it; without
directives the table gets the detected width. -/
theorem exact_render_sequence_witness :
    (actionFanOut (sampleEnv filesNewCalled) flagsFileOnly []).2 = none ∧
    attemptedCalls (Action (sampleEnv filesNewCalled) flagsFileOnly []).trace =
      renderPlan flagsFileOnly (detectTermWidth (sampleEnv filesNewCalled).termGetSize)
        (actionDiff (sampleEnv filesNewCalled) flagsFileOnly []) ∧
    attemptedCalls (Action (sampleEnv filesNewCalled) flagsFileOnly []).trace =
      [⟨newCalledDiff, "sarif", Writer.file "out.sarif", 0, false⟩,
       ⟨newCalledDiff, "table", Writer.stdout, 0, false⟩] ∧
    attemptedCalls (Action (sampleEnv filesNewCalled) flagsStderrOnly []).trace =
      [⟨newCalledDiff, "markdown", Writer.stderr, 0, false⟩] ∧
    attemptedCalls (Action (sampleEnv filesNewCalled) baseFlags []).trace =
      [⟨newCalledDiff, "table", Writer.stdout, 120, false⟩] ∧
    attemptedCalls (Action (sampleEnv filesNewCalled) flagsAnnotated []).trace =
      [⟨newCalledDiff, "json", Writer.file "out.json", 0, true⟩,
       ⟨newCalledDiff, "markdown", Writer.stderr, 0, true⟩,
       ⟨newCalledDiff, "gh-annotations", Writer.stderr, 0, true⟩] :=
  ⟨by decide,
    (exact_render_sequence (sampleEnv filesNewCalled) flagsFileOnly [] (by decide)).2.2,
    by decide, by decide, by decide, by decide⟩

end OsvReporter
